import Mathlib

/-
  Verification of the Janus gateway control plane (src/janus.c) against its
  natural-language specification.

  Shallow embedding conventions:
  * C pointers that may be NULL are modeled with Option; a NULL pointer is none.
  * GHashTable and GQueue (glib) are modeled as association lists and lists;
    g_hash_table_insert replaces an existing key, g_queue_push_tail appends,
    g_queue_pop_head takes the front.
  * Machine integers are Nat/Int; g_random_int returns a guint32, so its result
    is reduced mod 2^32 at the call site.
  * Jansson (the external JSON library) values are modeled by the inductive
    Json below; a char buffer that is fed to json_loads is modeled by its parse
    result (Option Json, none meaning a parse error). json_dumps is modeled
    symbolically by the Payload.dumped constructor, since the exact byte layout
    of the serializer (JSON_INDENT(3)) is external to this repository.
  * External collaborators (SDP subsystem, ICE agent, allocator) are oracles
    collected in the Externals structure; calls into the ICE agent and the
    plugin are additionally recorded in an ExtCall trace.
-/

namespace Janus

/-- Stable API error taxonomy of janus (apierror.h is not under src/, so the
numeric values are kept symbolic; the names follow the spec taxonomy). -/
inductive ApiError where
  | unknown
  | usePost
  | missingRequest
  | invalidJson
  | invalidJsonObject
  | missingMandatoryElement
  | invalidRequestPath
  | sessionNotFound
  | handleNotFound
  | pluginNotFound
  | pluginAttach
  | pluginDetach
  | pluginMessage
  | jsepUnknownType
  | jsepInvalidSdp
  | unknownRequest
deriving DecidableEq, Repr

/-- JSON values as produced by the external Jansson library. The code
constructor embeds a numeric API error code (json_integer(error)) whose
concrete value lives in apierror.h, outside src/. -/
inductive Json where
  | null
  | jbool (b : Bool)
  | num (n : Int)
  | str (s : String)
  | arr (elems : List Json)
  | obj (fields : List (String × Json))
  | code (e : ApiError)

/-- json_is_object. -/
def Json.is_object : Json → Bool
  | .obj _ => true
  | _ => false

/-- json_is_string. -/
def Json.is_string : Json → Bool
  | .str _ => true
  | _ => false

/-- json_object_get: field lookup in an object, none for absent keys and for
non-objects. -/
def Json.object_get : Json → String → Option Json
  | .obj fields, k => (fields.find? (fun p => p.1 = k)).map Prod.snd
  | _, _ => none

/-- json_string_value: the string payload of a string value. -/
def Json.string_value : Json → Option String
  | .str s => some s
  | _ => none

/-- Payload bytes held by a janus_http_event or an HTTP response body. A
string produced by json_dumps is kept symbolically as the dumped JSON value
(the serializer is the external Jansson library); a string literal from the
source is kept verbatim. -/
inductive Payload where
  | dumped (j : Json)
  | raw (s : String)

/-- janus_http_event (janus.h): one queued event. payload is a char pointer
(none models NULL). -/
structure janus_http_event where
  code : Nat
  payload : Option Payload
  allocated : Bool

/-- janus_plugin: the registry entry / vtable of a loaded plugin. Only the
behavior visible to the claims is kept: the package name, the display name and
the error value that create_session and destroy_session report through their
int pointer (0 meaning success). -/
structure janus_plugin where
  package : String
  name : String
  create_session_error : Int
  destroy_session_error : Int

/-- janus_ice_handle (janus_ice.h, declared outside src/): the gateway side of
a handle. The owning session back-pointer is modeled by the session id (none
models a NULL pointer); app is the bound plugin (NULL before attach);
app_handle records whether the plugin-side janus_pluginession token is
non-NULL; audio_id and video_id are the ICE stream ids. -/
structure janus_ice_handle where
  handle_id : Nat
  session : Option Nat
  app : Option janus_plugin
  app_handle : Bool
  audio_id : Nat
  video_id : Nat

/-- janus_pluginession: the plugin-side token, holding the gateway_handle
back-pointer. -/
structure janus_pluginession where
  gateway_handle : Option janus_ice_handle

/-- janus_session (janus.h): session record. messages is the event FIFO
(GQueue, head first); ice_handles is the per-session handle table, which
physically lives on the janus_ice side (outside src/). -/
structure janus_session where
  session_id : Nat
  messages : List janus_http_event
  destroy : Nat
  ice_handles : List (Nat × janus_ice_handle)

/-- Global gateway state: the session table (GHashTable keyed by session id)
and the stop flag set by the signal handler. -/
structure GatewayState where
  sessions : List (Nat × janus_session)
  stop : Nat

/-- g_hash_table_lookup on an association list. -/
def tlookup {α : Type} (t : List (Nat × α)) (k : Nat) : Option α :=
  (t.find? (fun p => p.1 = k)).map Prod.snd

/-- g_hash_table_insert: replaces the value when the key is present, otherwise
adds the pair. -/
def tinsert {α : Type} (t : List (Nat × α)) (k : Nat) (v : α) : List (Nat × α) :=
  if (t.find? (fun p => p.1 = k)).isSome then
    t.map (fun p => if p.1 = k then (p.1, v) else p)
  else
    (k, v) :: t

/-- g_hash_table_remove. -/
def tremove {α : Type} (t : List (Nat × α)) (k : Nat) : List (Nat × α) :=
  t.filter (fun p => p.1 ≠ k)

/-- g_queue_pop_head: none on an empty queue. -/
def queuePop : List janus_http_event → Option janus_http_event × List janus_http_event
  | [] => (none, [])
  | e :: rest => (some e, rest)

/-- Calls the gateway makes into the external collaborators (the plugin vtable
and the ICE agent); the handler accumulates them as a trace. -/
inductive ExtCall where
  | create_session (package : String) (handle_id : Nat)
  | destroy_session (package : String) (handle_id : Nat)
  | handle_message (package : String) (handle_id : Nat) (transaction : String)
      (body : Json) (sdp_type : Option String) (sdp : Option String)
  | ice_setup_local (handle_id : Nat) (offer : Nat) (audio : Nat) (video : Nat)
  | ice_setup_remote_candidate (handle_id : Nat) (stream_id : Nat) (component_id : Nat)
  | sdp_parse (handle_id : Nat)

/-- External oracles: the allocator (alloc_ok false makes every checked
calloc/strdup in the modeled code fail), the SDP subsystem (§6 contracts:
janus_sdp_preparse returns the audio/video m-line counts or fails,
janus_sdp_anonymize strips the SDP or fails, sdp_parse_ids gives the stream
ids janus_sdp_parse installs on the handle), the janus_handle_sdp result used
by push_event for plugin-originated JSEP (its internals block on the ICE
candidates-done poll, which is concurrency outside this embedding), and the
events concurrently pushed to the polled queue before poll round i of the
long-poll loop (arrive i). -/
structure Externals where
  alloc_ok : Bool
  sdp_preparse : String → Option (Nat × Nat)
  sdp_anonymize : String → Option String
  sdp_parse_ids : String → Nat × Nat
  handle_sdp : String → String → Option Json
  arrive : Nat → List janus_http_event

/-- Draws ids as the while loop in janus_session_create does: g_random_int
(a guint32, hence mod 2^32) is drawn repeatedly, a zero draw or a draw already
present in the table is rejected, until a free id is found. The draw stream is
the rng oracle; fuel bounds the retries (the C loop would spin forever on an
unlucky stream). -/
def pickFreshId (rng : Nat → Nat) (used : List Nat) : Nat → Nat → Option Nat
  | _, 0 => none
  | k, Nat.succ fuel =>
    let candidate := rng k % 4294967296
    if candidate = 0 ∨ candidate ∈ used then pickFreshId rng used (k + 1) fuel
    else some candidate

/-- janus_session_create (janus.c lines 109-130): draw a fresh id, allocate
the session (calloc may fail), register it in the session table. -/
def janus_session_create (rng : Nat → Nat) (fuel : Nat) (ext : Externals)
    (st : GatewayState) : Option janus_session × GatewayState :=
  match pickFreshId rng (st.sessions.map Prod.fst) 0 fuel with
  | none => (none, st)
  | some sid =>
    if ext.alloc_ok then
      let s : janus_session := ⟨sid, [], 0, []⟩
      (some s, ⟨tinsert st.sessions sid s, st.stop⟩)
    else (none, st)

/-- janus_session_find (janus.c lines 132-134). -/
def janus_session_find (st : GatewayState) (sid : Nat) : Option janus_session :=
  tlookup st.sessions sid

/-- janus_session_destroy (janus.c lines 136-161): set the destroy flag and
remove the session from the table. The handle-detach walk is only a TODO
comment in the source; no handle is touched and no plugin call is made. The
third component returns the surviving heap object (the C code frees nothing),
so the flag write stays observable after the removal. -/
def janus_session_destroy (st : GatewayState) (sid : Nat) :
    Int × GatewayState × Option janus_session :=
  match janus_session_find st sid with
  | none => (-1, st, none)
  | some s =>
    let s1 : janus_session := ⟨s.session_id, s.messages, 1, s.ice_handles⟩
    (0, ⟨tremove st.sessions sid, st.stop⟩, some s1)

/-- Modelled from the spec: janus_ice_handle_find lives in janus_ice.c, which
is not under src/. Per §2 the handle table is a per-session mapping from
handle id to handle record providing lookup. -/
def janus_ice_handle_find (s : janus_session) (hid : Nat) : Option janus_ice_handle :=
  tlookup s.ice_handles hid

/-- Modelled from the spec: janus_ice_handle_create lives in janus_ice.c,
which is not under src/. Per §4.2 attach allocates a handle with a fresh id
unique within the session and registers it; the identifier service draws
random ids and rejects collisions (§2), like session ids. The new handle has
no plugin bound yet. -/
def janus_ice_handle_create (rng : Nat → Nat) (fuel : Nat) (ext : Externals)
    (s : janus_session) : Option (Nat × janus_session) :=
  match pickFreshId rng (s.ice_handles.map Prod.fst) 0 fuel with
  | none => none
  | some hid =>
    if ext.alloc_ok then
      let h : janus_ice_handle := ⟨hid, some s.session_id, none, false, 0, 0⟩
      some (hid, ⟨s.session_id, s.messages, s.destroy, tinsert s.ice_handles hid h⟩)
    else none

/-- Modelled from the spec: janus_ice_handle_attach_plugin lives in
janus_ice.c, which is not under src/. Per §4.2 it invokes
plugin.create_session(handle_token) and reports a nonzero error on failure
(the caller in janus.c performs the rollback); on success the plugin and the
plugin-side token are bound to the handle. -/
def janus_ice_handle_attach_plugin (s : janus_session) (hid : Nat) (p : janus_plugin) :
    Int × janus_session × List ExtCall :=
  match janus_ice_handle_find s hid with
  | none => (-1, s, [])
  | some h =>
    let calls := [ExtCall.create_session p.package hid]
    if p.create_session_error ≠ 0 then (p.create_session_error, s, calls)
    else
      let h1 : janus_ice_handle := ⟨h.handle_id, h.session, some p, true, h.audio_id, h.video_id⟩
      (0, ⟨s.session_id, s.messages, s.destroy, tinsert s.ice_handles hid h1⟩, calls)

/-- Modelled from the spec: janus_ice_handle_destroy lives in janus_ice.c,
which is not under src/. Per §4.2 and §7 detach invokes
plugin.destroy_session(handle_token) when a plugin is bound, and whether or
not that succeeds the handle is removed from the session; the plugin error is
reported to the caller. -/
def janus_ice_handle_destroy (s : janus_session) (hid : Nat) :
    Int × janus_session × List ExtCall :=
  match janus_ice_handle_find s hid with
  | none => (-1, s, [])
  | some h =>
    let s1 : janus_session := ⟨s.session_id, s.messages, s.destroy, tremove s.ice_handles hid⟩
    match h.app with
    | none => (0, s1, [])
    | some p => (p.destroy_session_error, s1, [ExtCall.destroy_session p.package hid])

/-- Modelled from the spec: janus_ice_setup_local lives in janus_ice.c, which
is not under src/. Per §6 it instructs the ICE agent to set up the local agent
with the given role and audio/video flags; only the call itself is recorded. -/
def janus_ice_setup_local (h : janus_ice_handle) (offer : Nat) (audio : Nat) (video : Nat) :
    List ExtCall :=
  [ExtCall.ice_setup_local h.handle_id offer audio video]

/-- Modelled from the spec: janus_ice_setup_remote_candidate lives in
janus_ice.c, which is not under src/. Per §6 it submits the remote candidate
of one stream component to the ICE agent; only the call is recorded. -/
def janus_ice_setup_remote_candidate (h : janus_ice_handle) (stream_id : Nat)
    (component_id : Nat) : List ExtCall :=
  [ExtCall.ice_setup_remote_candidate h.handle_id stream_id component_id]

/-- The event envelope janus_push_event builds (janus.c lines 952-963):
janus, sender, optional transaction, plugindata with the plugin package and
the event data, optional jsep. Field order follows the json_object_set calls. -/
def janus_event_envelope (sender : Nat) (transaction : Option String)
    (package : String) (data : Json) (jsep : Option Json) : Json :=
  Json.obj ([("janus", Json.str "event"), ("sender", Json.num sender)]
    ++ (match transaction with
        | some t => [("transaction", Json.str t)]
        | none => [])
    ++ [("plugindata", Json.obj [("plugin", Json.str package), ("data", data)])]
    ++ (match jsep with
        | some j => [("jsep", j)]
        | none => []))

/-- Return values of janus_push_event. The C function returns an int that is
either JANUS_OK, the raw -1 for NULL arguments, or a JANUS_ERROR_* code from
apierror.h (not under src/, kept symbolic), so the three classes are kept
apart by constructor. -/
inductive PushRet where
  | ok
  | minusOne
  | err (e : ApiError)
deriving DecidableEq, Repr

/-- Appends an event to the message queue of the session the handle points to
(g_queue_push_tail on session->messages). The C code reaches the session
through the ice_handle->session pointer; the embedding resolves the session id
through the table, which coincides for every state in which the session is
still registered. -/
def pushToSession (st : GatewayState) (sid : Nat) (e : janus_http_event) : GatewayState :=
  ⟨st.sessions.map (fun p =>
      if p.1 = sid then
        (p.1, ⟨p.2.session_id, p.2.messages ++ [e], p.2.destroy, p.2.ice_handles⟩)
      else p),
    st.stop⟩

/-- janus_push_event (janus.c lines 923-983): the gateway callback a plugin
invokes to push a JSON event toward the endpoint. NULL handle, plugin or
message give -1; a NULL gateway_handle or session back-pointer gives
SESSION_NOT_FOUND; the message must parse as a JSON object; an optional
sdp_type/sdp pair is turned into a jsep by janus_handle_sdp (modeled by the
handle_sdp oracle, since that path blocks on the ICE candidates-done poll);
the wrapped envelope is enqueued at the tail of the session queue. -/
def janus_push_event (ext : Externals) (handle : Option janus_pluginession)
    (plugin : Option janus_plugin) (transaction : Option String)
    (message : Option (Option Json)) (sdp_type : Option String) (sdp : Option String)
    (st : GatewayState) : PushRet × GatewayState :=
  match handle, plugin, message with
  | some handle, some plugin, some parsed =>
    (match handle.gateway_handle with
     | none => (.err .sessionNotFound, st)
     | some ice_handle =>
       match ice_handle.session with
       | none => (.err .sessionNotFound, st)
       | some sid =>
         match parsed with
         | none => (.err .invalidJson, st)
         | some event =>
           if ¬ event.is_object then (.err .invalidJsonObject, st)
           else
             let enqueue : Option Json → PushRet × GatewayState := fun jsep =>
               let reply := janus_event_envelope ice_handle.handle_id transaction
                 plugin.package event jsep
               if ext.alloc_ok then
                 let notification : janus_http_event := ⟨200, some (.dumped reply), true⟩
                 (.ok, pushToSession st sid notification)
               else (.err .unknown, st)
             match sdp_type, sdp with
             | some ty, some sdptext =>
               (match ext.handle_sdp ty sdptext with
                | none => (.err .jsepInvalidSdp, st)
                | some jsep => enqueue (some jsep))
             | _, _ => enqueue none)
  | _, _, _ => (.minusOne, st)

/-- An HTTP response queued on the MHD connection: status code, headers in
the order MHD_add_response_header is called, body bytes. -/
structure Response where
  status : Nat
  headers : List (String × String)
  body : Option Payload

/-- janus_http_msg: the per-request context. Only the fields the modeled
paths read are kept: the echoed cross-origin request headers and the session
id cached from the URL for the long-poll worker. -/
structure janus_http_msg where
  acrm : Option String
  acrh : Option String
  session_id : Nat

/-- The header block every janus.c emission site adds: the wildcard CORS
origin followed by the pre-flight echo headers when the client sent them. -/
def corsHeaders (msg : janus_http_msg) : List (String × String) :=
  [("Access-Control-Allow-Origin", "*")]
    ++ (match msg.acrm with
        | some v => [("Access-Control-Allow-Methods", v)]
        | none => [])
    ++ (match msg.acrh with
        | some v => [("Access-Control-Allow-Headers", v)]
        | none => [])

/-- janus_ws_success (janus.c lines 821-840): a 200 reply carrying the given
payload with Content-Type application/json and the CORS headers. A NULL
payload makes it return MHD_NO, i.e. no response. -/
def janus_ws_success (msg : janus_http_msg) (payload : Option Payload) : Option Response :=
  match payload with
  | none => none
  | some p => some ⟨200, ("Content-Type", "application/json") :: corsHeaders msg, some p⟩

/-- janus_ws_error (janus.c lines 842-897): formats the reason (the variadic
formatting is external; the already formatted reason string is taken as an
argument — every call site in janus.c passes a format string, so the
calloc of the 512-byte buffer is always attempted), builds the error envelope
and replies 200 with the CORS headers. When that calloc fails the function
queues a bare empty 500 response without any header. -/
def janus_ws_error (ext : Externals) (msg : janus_http_msg) (transaction : Option String)
    (error : ApiError) (reason : String) : Option Response :=
  if ext.alloc_ok then
    let reply := Json.obj ([("janus", Json.str "error")]
      ++ (match transaction with
          | some t => [("transaction", Json.str t)]
          | none => [])
      ++ [("error", Json.obj [("code", Json.code error), ("reason", Json.str reason)])])
    some ⟨200, ("Content-Type", "application/json") :: corsHeaders msg, some (.dumped reply)⟩
  else
    some ⟨500, [], none⟩

/-- The keep-alive body, verbatim from janus.c line 794 (note the spaces
around the colon in the source literal). -/
def keepaliveText : String := "\x7b\"janus\" : \"keepalive\"\x7d"

/-- The long-poll loop of janus_ws_notifier (janus.c lines 770-782): each
round first merges the events pushed concurrently since the previous poll
(the arrive oracle), pops the queue head, and exits when the stop flag is set
or an event was obtained, otherwise sleeps 100 ms. The C loop runs while
end-start is below 30 s of monotonic time with a 100 ms sleep per round, i.e.
at most 300 rounds, which is the fuel the caller passes. -/
def notifierLoop (arrive : Nat → List janus_http_event) (stop : Nat) :
    Nat → Nat → List janus_http_event → Option janus_http_event × List janus_http_event
  | 0, _, q => (none, q)
  | Nat.succ fuel, i, q =>
    let q1 := q ++ arrive i
    let popped := queuePop q1
    if stop ≠ 0 ∨ popped.1.isSome then popped
    else notifierLoop arrive stop fuel (i + 1) popped.2

/-- janus_ws_notifier (janus.c lines 749-819): the long-poll worker. Looks
the session up again, runs the bounded poll loop, and serves either the
popped event payload or the static keep-alive. Both serve paths g_strdup or
calloc first, so an allocator failure queues a 500 with a NULL response
object, which MHD rejects: no response is emitted (none). -/
def janus_ws_notifier (ext : Externals) (msg : janus_http_msg) (st : GatewayState) :
    Option Response × GatewayState :=
  match janus_session_find st msg.session_id with
  | none => (some ⟨404, corsHeaders msg, none⟩, st)
  | some session =>
    let polled := notifierLoop ext.arrive st.stop 300 0 session.messages
    let st1 : GatewayState :=
      ⟨st.sessions.map (fun p =>
          if p.1 = msg.session_id then
            (p.1, ⟨p.2.session_id, polled.2, p.2.destroy, p.2.ice_handles⟩)
          else p),
        st.stop⟩
    match polled.1 with
    | some event =>
      match event.payload with
      | some p =>
        if ext.alloc_ok then (janus_ws_success msg (some p), st1) else (none, st1)
      | none =>
        if ext.alloc_ok then (janus_ws_success msg (some (.raw keepaliveText)), st1)
        else (none, st1)
    | none =>
      if ext.alloc_ok then (janus_ws_success msg (some (.raw keepaliveText)), st1)
      else (none, st1)

/-- strcasecmp equality: case-insensitive string comparison, character by
character. -/
def strcaseeq (a b : String) : Bool :=
  a.data.map Char.toLower == b.data.map Char.toLower

/-- Decimal digit accumulation for g_ascii_strtoll: consumes leading digits,
stops at the first non-digit. -/
def parseDigits : List Char → Nat → Nat
  | [], acc => acc
  | c :: rest, acc =>
    if c.isDigit then parseDigits rest (10 * acc + (c.toNat - 48)) else acc

/-- g_ascii_strtoll with base 10 (glib, external): parses the decimal prefix
of the string, with an optional leading minus sign, and returns 0 when no
digit is present. Whitespace skipping and overflow clamping of the C function
are not exercised by the modeled requests. -/
def g_ascii_strtoll (s : String) : Int :=
  match s.data with
  | '-' :: rest => -(parseDigits rest 0 : Int)
  | cs => (parseDigits cs 0 : Int)

/-- The outcome of matching the request URL against the base path (janus.c
lines 217-282): either the URL does not extend the base path with a slash
(404), or it yields the non-empty session and handle components plus a flag
for a non-empty fourth component. The glib string splitting itself is
external; the handler receives its outcome. -/
inductive ReqPath where
  | badUrl
  | parsed (session_path : Option String) (handle_path : Option String) (extra : Bool)

/-- One fully assembled HTTP request, as seen by the processing round of
janus_ws_handler: the method, the matched path, and for POST the accumulated
body given by its json_loads outcome (none: no body arrived; some none: the
bytes do not parse; some (some root): parsed value). -/
structure HttpReq where
  method : String
  path : ReqPath
  payload : Option (Option Json)

/-- What one call of the request handler produces: the queued response if
any (none models MHD_NO, also queued-with-NULL-response 500 paths that MHD
rejects), the new gateway state, and the trace of external calls made. -/
structure HandlerResult where
  response : Option Response
  state : GatewayState
  calls : List ExtCall

/-- Replaces the stored record of session sid in the table (the C code
mutates the session object in place through its pointer). -/
def setSession (st : GatewayState) (sid : Nat) (s : janus_session) : GatewayState :=
  ⟨st.sessions.map (fun p => if p.1 = sid then (p.1, s) else p), st.stop⟩

/-- The success envelope with a data.id field, as built for create and attach
replies (janus.c lines 364-370 and 524-530). -/
def janus_success_with_id (t : String) (id : Nat) : Json :=
  Json.obj [("janus", Json.str "success"), ("transaction", Json.str t),
    ("data", Json.obj [("id", Json.num id)])]

/-- The plain success envelope of destroy and detach replies. -/
def janus_success_plain (t : String) : Json :=
  Json.obj [("janus", Json.str "success"), ("transaction", Json.str t)]

/-- The ack envelope returned right away for a plugin message. -/
def janus_ack (t : String) : Json :=
  Json.obj [("janus", Json.str "ack"), ("transaction", Json.str t)]

/-- The session-less branch of janus_ws_handler (janus.c lines 317-379):
only create is handled here. GET is rejected with USE_POST, the envelope is
validated (parse error, non-object, mandatory transaction and janus fields),
any verb other than create gives INVALID_REQUEST_PATH, and a created session
is reported through a success envelope carrying its id. -/
def janus_ws_create_branch (ext : Externals) (rng : Nat → Nat) (fuel : Nat)
    (req : HttpReq) (msg : janus_http_msg) (st : GatewayState) : HandlerResult :=
  if strcaseeq req.method "GET" then
    ⟨janus_ws_error ext msg none .usePost "Use POST to create a session", st, []⟩
  else
    match req.payload with
    | none =>
      ⟨janus_ws_error ext msg none .missingRequest "JSON error: missing request", st, []⟩
    | some none =>
      ⟨janus_ws_error ext msg none .invalidJson "JSON error: on line %d: %s", st, []⟩
    | some (some root) =>
      if ¬ root.is_object then
        ⟨janus_ws_error ext msg none .invalidJsonObject "JSON error: not an object", st, []⟩
      else
        match root.object_get "transaction" with
        | some (Json.str t) =>
          (match root.object_get "janus" with
           | some (Json.str message_text) =>
             if ¬ strcaseeq message_text "create" then
               ⟨janus_ws_error ext msg (some t) .invalidRequestPath
                 "Unhandled request \x27%s\x27 at this path", st, []⟩
             else
               match janus_session_create rng fuel ext st with
               | (none, st1) =>
                 ⟨janus_ws_error ext msg (some t) .unknown "Memory error", st1, []⟩
               | (some session, st1) =>
                 ⟨janus_ws_success msg
                   (some (.dumped (janus_success_with_id t session.session_id))), st1, []⟩
           | _ =>
             ⟨janus_ws_error ext msg (some t) .missingMandatoryElement
               "JSON error: missing mandatory element (janus)", st, []⟩)
        | _ =>
          ⟨janus_ws_error ext msg none .missingMandatoryElement
            "JSON error: missing mandatory element (transaction)", st, []⟩

/-- The GET / long-poll branch of janus_ws_handler (janus.c lines 410-449):
a GET on a handle URL is redirected to the session URL; an unknown session is
a 404; otherwise the queue head is served when available, else the long-poll
worker takes over. -/
def janus_ws_get_branch (ext : Externals) (ws_path : String) (session_path : String)
    (handle_path : Option String) (msg : janus_http_msg) (sid : Nat)
    (st : GatewayState) : HandlerResult :=
  match handle_path with
  | some _ =>
    ⟨some ⟨302, ("Location", ws_path ++ "/" ++ session_path) :: corsHeaders msg, none⟩,
      st, []⟩
  | none =>
    match janus_session_find st sid with
    | none => ⟨some ⟨404, corsHeaders msg, none⟩, st, []⟩
    | some session =>
      match queuePop session.messages with
      | (some event, rest) =>
        ⟨janus_ws_success msg event.payload,
          setSession st sid ⟨session.session_id, rest, session.destroy, session.ice_handles⟩,
          []⟩
      | (none, _) =>
        let polled := janus_ws_notifier ext msg st
        ⟨polled.1, polled.2, []⟩

/-- The attach branch (janus.c lines 492-536): session-level only, requires a
plugin string naming a loaded plugin, creates a handle, attaches it to the
plugin, rolls the handle back via janus_ice_handle_destroy when the plugin
create_session fails, and otherwise replies with the new handle id. -/
def janus_ws_attach_branch (ext : Externals) (plugins : List (String × janus_plugin))
    (rng : Nat → Nat) (fuel : Nat) (root : Json) (t : String)
    (msg : janus_http_msg) (sid : Nat) (session : janus_session)
    (handleOpt : Option janus_ice_handle) (st : GatewayState) : HandlerResult :=
  match handleOpt with
  | some _ =>
    ⟨janus_ws_error ext msg (some t) .invalidRequestPath
      "Unhandled request \x27%s\x27 at this path", st, []⟩
  | none =>
    match root.object_get "plugin" with
    | some (Json.str plugin_text) =>
      (match (plugins.find? (fun p => p.1 = plugin_text)).map Prod.snd with
       | none =>
         ⟨janus_ws_error ext msg (some t) .pluginNotFound "No such plugin \x27%s\x27", st, []⟩
       | some plugin_t =>
         match janus_ice_handle_create rng fuel ext session with
         | none => ⟨janus_ws_error ext msg (some t) .unknown "Memory error", st, []⟩
         | some (handle_id, session1) =>
           match janus_ice_handle_attach_plugin session1 handle_id plugin_t with
           | (error, session2, calls) =>
             if error ≠ 0 then
               match janus_ice_handle_destroy session2 handle_id with
               | (_, session3, calls2) =>
                 ⟨janus_ws_error ext msg (some t) .pluginAttach
                   "Couldn\x27t attach to plugin: error \x27%d\x27",
                   setSession st sid session3, calls ++ calls2⟩
             else
               ⟨janus_ws_success msg (some (.dumped (janus_success_with_id t handle_id))),
                 setSession st sid session2, calls⟩)
    | _ =>
      ⟨janus_ws_error ext msg (some t) .missingMandatoryElement
        "JSON error: missing mandatory element (plugin)", st, []⟩

/-- The destroy branch (janus.c lines 537-552): session-level only, calls
janus_session_destroy without checking its outcome, and always replies with
the plain success envelope. -/
def janus_ws_destroy_branch (ext : Externals) (t : String) (msg : janus_http_msg)
    (sid : Nat) (handleOpt : Option janus_ice_handle) (st : GatewayState) : HandlerResult :=
  match handleOpt with
  | some _ =>
    ⟨janus_ws_error ext msg (some t) .invalidRequestPath
      "Unhandled request \x27%s\x27 at this path", st, []⟩
  | none =>
    match janus_session_destroy st sid with
    | (_, st1, _) =>
      ⟨janus_ws_success msg (some (.dumped (janus_success_plain t))), st1, []⟩

/-- The detach branch (janus.c lines 553-578): handle-level only, rejects a
handle without a bound plugin, destroys the handle (which per §4.2 invokes
the plugin destroy_session and removes the handle either way), and reports
PLUGIN_DETACH when the plugin reported an error. -/
def janus_ws_detach_branch (ext : Externals) (t : String) (msg : janus_http_msg)
    (sid : Nat) (session : janus_session) (handle_id : Nat)
    (handleOpt : Option janus_ice_handle) (st : GatewayState) : HandlerResult :=
  match handleOpt with
  | none =>
    ⟨janus_ws_error ext msg (some t) .invalidRequestPath
      "Unhandled request \x27%s\x27 at this path", st, []⟩
  | some handle =>
    if handle.app.isNone || !handle.app_handle then
      ⟨janus_ws_error ext msg (some t) .pluginDetach "No plugin to detach from", st, []⟩
    else
      match janus_ice_handle_destroy session handle_id with
      | (error, session1, calls) =>
        if error ≠ 0 then
          ⟨janus_ws_error ext msg (some t) .pluginDetach
            "Couldn\x27t detach from plugin: error \x27%d\x27",
            setSession st sid session1, calls⟩
        else
          ⟨janus_ws_success msg (some (.dumped (janus_success_plain t))),
            setSession st sid session1, calls⟩

/-- The message branch (janus.c lines 579-700): handle-level only, requires a
bound plugin and a body object. A missing body is rejected with the
INVALID_JSON code (the reason text says missing mandatory element). An
optional jsep object must carry a string type of offer or answer and a string
sdp; the sdp is pre-parsed (failure: JSEP_INVALID_SDP), an offer sets up
local ICE, janus_sdp_parse installs the stream ids on the handle, an answer
submits the remote candidates for both components of each active stream, the
sdp is anonymized (failure: JSEP_INVALID_SDP), and the plugin handle_message
finally receives transaction, body, type and stripped sdp before the ack. -/
def janus_ws_message_branch (ext : Externals) (root : Json) (t : String)
    (msg : janus_http_msg) (sid : Nat) (session : janus_session) (handle_id : Nat)
    (handleOpt : Option janus_ice_handle) (st : GatewayState) : HandlerResult :=
  match handleOpt with
  | none =>
    ⟨janus_ws_error ext msg (some t) .invalidRequestPath
      "Unhandled request \x27%s\x27 at this path", st, []⟩
  | some handle =>
    match handle.app with
    | none =>
      ⟨janus_ws_error ext msg (some t) .pluginMessage "No plugin to handle this message",
        st, []⟩
    | some plugin_t =>
      if handle.app_handle = false then
        ⟨janus_ws_error ext msg (some t) .pluginMessage "No plugin to handle this message",
          st, []⟩
      else
        match root.object_get "body" with
        | none =>
          ⟨janus_ws_error ext msg (some t) .invalidJson
            "JSON error: missing mandatory element (body)", st, []⟩
        | some body =>
          if ¬ body.is_object then
            ⟨janus_ws_error ext msg (some t) .invalidJsonObject "Invalid body object", st, []⟩
          else
            match root.object_get "jsep" with
            | some jsep =>
              if ¬ jsep.is_object then
                ⟨janus_ws_error ext msg (some t) .invalidJsonObject "Invalid jsep object",
                  st, []⟩
              else
                (match jsep.object_get "type" with
                 | some (Json.str jsep_type) =>
                   if ext.alloc_ok then
                     if strcaseeq jsep_type "offer" ∨ strcaseeq jsep_type "answer" then
                       let offer : Nat := if strcaseeq jsep_type "offer" then 1 else 0
                       match jsep.object_get "sdp" with
                       | some (Json.str jsep_sdp) =>
                         (match ext.sdp_preparse jsep_sdp with
                          | none =>
                            ⟨janus_ws_error ext msg (some t) .jsepInvalidSdp
                              "JSEP error: invalid SDP", st, []⟩
                          | some (audio, video) =>
                            let calls1 := if offer = 1 then
                                janus_ice_setup_local handle offer audio video
                              else []
                            let ids := ext.sdp_parse_ids jsep_sdp
                            let handle1 : janus_ice_handle :=
                              ⟨handle.handle_id, handle.session, handle.app,
                                handle.app_handle, ids.1, ids.2⟩
                            let session1 : janus_session :=
                              ⟨session.session_id, session.messages, session.destroy,
                                tinsert session.ice_handles handle_id handle1⟩
                            let st1 := setSession st sid session1
                            let calls2 := calls1 ++ [ExtCall.sdp_parse handle.handle_id]
                            let calls3 := calls2 ++ (if offer = 0 then
                                (if handle1.audio_id > 0 then
                                  janus_ice_setup_remote_candidate handle1 handle1.audio_id 1
                                    ++ janus_ice_setup_remote_candidate handle1 handle1.audio_id 2
                                else [])
                                ++ (if handle1.video_id > 0 then
                                  janus_ice_setup_remote_candidate handle1 handle1.video_id 1
                                    ++ janus_ice_setup_remote_candidate handle1 handle1.video_id 2
                                else [])
                              else [])
                            match ext.sdp_anonymize jsep_sdp with
                            | none =>
                              ⟨janus_ws_error ext msg (some t) .jsepInvalidSdp
                                "JSEP error: invalid SDP", st1, calls3⟩
                            | some stripped =>
                              ⟨janus_ws_success msg (some (.dumped (janus_ack t))), st1,
                                calls3 ++ [ExtCall.handle_message plugin_t.package
                                  handle.handle_id t body (some jsep_type) (some stripped)]⟩)
                       | _ =>
                         ⟨janus_ws_error ext msg (some t) .missingMandatoryElement
                           "JSEP error: missing mandatory element (sdp)", st, []⟩
                     else
                       ⟨janus_ws_error ext msg (some t) .jsepUnknownType
                         "JSEP error: unknown message type \x27%s\x27", st, []⟩
                   else ⟨none, st, []⟩
                 | _ =>
                   ⟨janus_ws_error ext msg (some t) .missingMandatoryElement
                     "JSEP error: missing mandatory element (type)", st, []⟩)
            | none =>
              ⟨janus_ws_success msg (some (.dumped (janus_ack t))), st,
                [ExtCall.handle_message plugin_t.package handle.handle_id t body none none]⟩

/-- The envelope checks and verb dispatch for a POST inside a session URL
(janus.c lines 451-703): parse and object checks, mandatory transaction and
janus fields, session and handle resolution, then the attach, destroy,
detach and message branches, with UNKNOWN_REQUEST as the fallback. -/
def janus_ws_post_dispatch (ext : Externals) (plugins : List (String × janus_plugin))
    (rng : Nat → Nat) (fuel : Nat) (root : Json) (msg : janus_http_msg)
    (sid : Nat) (handle_id : Nat) (st : GatewayState) : HandlerResult :=
  if ¬ root.is_object then
    ⟨janus_ws_error ext msg none .invalidJsonObject "JSON error: not an object", st, []⟩
  else
    match root.object_get "transaction" with
    | some (Json.str t) =>
      (match root.object_get "janus" with
       | some (Json.str message_text) =>
         (match janus_session_find st sid with
          | none =>
            ⟨janus_ws_error ext msg (some t) .sessionNotFound "No such session %ld", st, []⟩
          | some session =>
            let dispatch : Option janus_ice_handle → HandlerResult := fun handleOpt =>
              if strcaseeq message_text "attach" then
                janus_ws_attach_branch ext plugins rng fuel root t msg sid session
                  handleOpt st
              else if strcaseeq message_text "destroy" then
                janus_ws_destroy_branch ext t msg sid handleOpt st
              else if strcaseeq message_text "detach" then
                janus_ws_detach_branch ext t msg sid session handle_id handleOpt st
              else if strcaseeq message_text "message" then
                janus_ws_message_branch ext root t msg sid session handle_id handleOpt st
              else
                ⟨janus_ws_error ext msg (some t) .unknownRequest
                  "Unknown request \x27%s\x27", st, []⟩
            if handle_id > 0 then
              match janus_ice_handle_find session handle_id with
              | none =>
                ⟨janus_ws_error ext msg (some t) .handleNotFound
                  "No such handle %ld in session %ld", st, []⟩
              | some h => dispatch (some h)
            else dispatch none)
       | _ =>
         ⟨janus_ws_error ext msg (some t) .missingMandatoryElement
           "JSON error: missing mandatory element (janus)", st, []⟩)
    | _ =>
      ⟨janus_ws_error ext msg none .missingMandatoryElement
        "JSON error: missing mandatory element (transaction)", st, []⟩

/-- janus_ws_handler (janus.c lines 165-713), the processing round of one
request (header collection and POST body accumulation of the earlier rounds
are already folded into HttpReq): unsupported methods give 501, OPTIONS is
answered with the CORS echo, a URL that does not extend the base path or has
too many components gives 404, a POST whose body never arrived gives MHD_NO,
the session-less URL only accepts create, numeric session and handle ids
below 1 give 404, GET is served from the queue or the long-poll worker, and
a POST body is dispatched on its janus verb. The g_strdup of the path
components is allocation-checked in the source (failure queues a 500 with a
NULL response object, so nothing is emitted). -/
def janus_ws_handler (ext : Externals) (plugins : List (String × janus_plugin))
    (rng : Nat → Nat) (fuel : Nat) (ws_path : String) (req : HttpReq)
    (msg : janus_http_msg) (st : GatewayState) : HandlerResult :=
  if !(strcaseeq req.method "GET" || strcaseeq req.method "POST"
      || strcaseeq req.method "OPTIONS") then
    ⟨some ⟨501, corsHeaders msg, none⟩, st, []⟩
  else if strcaseeq req.method "OPTIONS" then
    ⟨some ⟨200, corsHeaders msg, none⟩, st, []⟩
  else
    match req.path with
    | .badUrl => ⟨some ⟨404, corsHeaders msg, none⟩, st, []⟩
    | .parsed session_path handle_path extra =>
      if session_path.isSome && !ext.alloc_ok then ⟨none, st, []⟩
      else if (session_path.isSome && handle_path.isSome) && extra then
        ⟨some ⟨404, corsHeaders msg, none⟩, st, []⟩
      else if strcaseeq req.method "POST" && req.payload.isNone then
        ⟨none, st, []⟩
      else
        match session_path with
        | none => janus_ws_create_branch ext rng fuel req msg st
        | some sp =>
          if g_ascii_strtoll sp < 1 then ⟨some ⟨404, corsHeaders msg, none⟩, st, []⟩
          else
            let sid := (g_ascii_strtoll sp).toNat
            let msg1 : janus_http_msg := ⟨msg.acrm, msg.acrh, sid⟩
            let rest : Nat → HandlerResult := fun handle_id =>
              if strcaseeq req.method "GET" || req.payload.isNone then
                janus_ws_get_branch ext ws_path sp handle_path msg1 sid st
              else
                match req.payload with
                | some none =>
                  ⟨janus_ws_error ext msg1 none .invalidJson
                    "JSON error: on line %d: %s", st, []⟩
                | some (some root) =>
                  janus_ws_post_dispatch ext plugins rng fuel root msg1 sid handle_id st
                | none => ⟨none, st, []⟩
            match handle_path with
            | none => rest 0
            | some hp =>
              if g_ascii_strtoll hp < 1 then ⟨some ⟨404, corsHeaders msg, none⟩, st, []⟩
              else rest (g_ascii_strtoll hp).toNat

/-- Modelled from the spec, for comparison with janus_session_create: §4.2
says create draws a random 64-bit id, so this variant draws the stream value
reduced mod 2^64 instead of mod 2^32 (g_random_int). Used only to refute the
64-bit reading against the code. -/
def pickFreshId64 (rng : Nat → Nat) (used : List Nat) : Nat → Nat → Option Nat
  | _, 0 => none
  | k, Nat.succ fuel =>
    let candidate := rng k % 18446744073709551616
    if candidate = 0 ∨ candidate ∈ used then pickFreshId64 rng used (k + 1) fuel
    else some candidate

/-- Modelled from the spec: janus_session_create as §4.2 describes it, with a
freshly drawn random 64-bit id. Identical to janus_session_create except for
the width of the draw. -/
def janus_session_create_spec64 (rng : Nat → Nat) (fuel : Nat) (ext : Externals)
    (st : GatewayState) : Option janus_session × GatewayState :=
  match pickFreshId64 rng (st.sessions.map Prod.fst) 0 fuel with
  | none => (none, st)
  | some sid =>
    if ext.alloc_ok then
      let s : janus_session := ⟨sid, [], 0, []⟩
      (some s, ⟨tinsert st.sessions sid s, st.stop⟩)
    else (none, st)

/-- Canned externals for concrete runs: allocations succeed, the SDP oracles
fail on everything, no events arrive during polls. -/
def extOk : Externals :=
  ⟨true, fun _ => none, fun _ => none, fun _ => (0, 0), fun _ _ => none, fun _ => []⟩

/-- Canned externals whose allocator fails. -/
def extNoAlloc : Externals :=
  ⟨false, fun _ => none, fun _ => none, fun _ => (0, 0), fun _ _ => none, fun _ => []⟩

/-- The videocall plugin of src/plugins, as a registry entry whose
create_session and destroy_session succeed. -/
def videocallPlugin : janus_plugin :=
  ⟨"janus.plugin.videocall", "JANUS VideoCall plugin", 0, 0⟩

/-- A registry entry whose create_session reports error -2. -/
def failingPlugin : janus_plugin :=
  ⟨"janus.plugin.videocall", "JANUS VideoCall plugin", -2, 0⟩

/-- Holds of an emission outcome when either nothing was emitted, the
response is one of the internal-error 500s, or the response carries the
wildcard CORS origin header. -/
def responseCors : Option Response → Prop
  | none => True
  | some r => r.status = 500 ∨ ("Access-Control-Allow-Origin", "*") ∈ r.headers

/-! Helper lemmas about the table and queue primitives. -/

theorem mem_corsHeaders (msg : janus_http_msg) :
    ("Access-Control-Allow-Origin", "*") ∈ corsHeaders msg := by
  simp [corsHeaders]

theorem tlookup_update {α : Type} (g : α → α) (l : List (Nat × α)) (k : Nat) :
    tlookup (l.map fun p => if p.1 = k then (p.1, g p.2) else p) k
      = (tlookup l k).map g := by
  induction l with
  | nil => rfl
  | cons a tl ih =>
    by_cases h : a.1 = k
    · simp [tlookup, List.find?_cons, h]
    · simpa [tlookup, List.find?_cons, h] using ih

theorem tlookup_tinsert {α : Type} (l : List (Nat × α)) (k : Nat) (v : α) :
    tlookup (tinsert l k v) k = some v := by
  unfold tinsert
  by_cases h : (l.find? fun p => p.1 = k).isSome
  · rw [if_pos h]
    have : tlookup (l.map fun p => if p.1 = k then (p.1, v) else p) k
        = (tlookup l k).map (fun _ => v) := tlookup_update (fun _ => v) l k
    rw [this]
    rcases Option.isSome_iff_exists.mp h with ⟨p, hp⟩
    simp [tlookup, hp]
  · rw [if_neg h]
    simp [tlookup, List.find?_cons]

theorem tlookup_eq_none_of_not_mem {α : Type} (l : List (Nat × α)) (k : Nat)
    (h : k ∉ l.map Prod.fst) : tlookup l k = none := by
  induction l with
  | nil => rfl
  | cons a tl ih =>
    simp only [List.map_cons, List.mem_cons] at h
    push_neg at h
    have ha : ¬ a.1 = k := fun hk => h.1 hk.symm
    simp [tlookup, List.find?_cons, ha]
    simpa [tlookup] using ih h.2

theorem tremove_tinsert_fresh {α : Type} (l : List (Nat × α)) (k : Nat) (v : α)
    (h : k ∉ l.map Prod.fst) : tremove (tinsert l k v) k = l := by
  have hfind : (l.find? fun p => p.1 = k) = none := by
    rw [List.find?_eq_none]
    intro p hp
    simp only [decide_eq_true_eq]
    intro hk
    exact h (by simpa [hk] using List.mem_map_of_mem Prod.fst hp)
  unfold tinsert
  rw [hfind]
  simp only [Option.isSome_none, Bool.false_eq_true, if_false]
  unfold tremove
  rw [List.filter_cons]
  simp only [ne_eq, not_true_eq_false, decide_False, if_false]
  apply List.filter_eq_self.mpr
  intro p hp
  simp only [ne_eq, decide_eq_true_eq]
  intro hk
  exact h (by simpa [hk] using List.mem_map_of_mem Prod.fst hp)

theorem pickFreshId_spec (rng : Nat → Nat) (used : List Nat) (fuel k sid : Nat)
    (h : pickFreshId rng used k fuel = some sid) :
    0 < sid ∧ sid < 4294967296 ∧ sid ∉ used := by
  induction fuel generalizing k with
  | zero => simp [pickFreshId] at h
  | succ n ih =>
    unfold pickFreshId at h
    by_cases hc : rng k % 4294967296 = 0 ∨ rng k % 4294967296 ∈ used
    · rw [if_pos hc] at h
      exact ih _ h
    · rw [if_neg hc] at h
      push_neg at hc
      cases h
      exact ⟨Nat.pos_of_ne_zero hc.1, Nat.mod_lt _ (by norm_num), hc.2⟩

theorem notifierLoop_empty (arrive : Nat → List janus_http_event) (stop : Nat)
    (hnone : ∀ i, arrive i = []) (fuel i : Nat) :
    notifierLoop arrive stop fuel i [] = (none, []) := by
  induction fuel generalizing i with
  | zero => rfl
  | succ n ih =>
    unfold notifierLoop
    simp [hnone, queuePop, ih]

/-! Claim theorems. -/

/-- C3: for every call to push_event whose message argument parses as JSON but
is not a JSON object, push_event returns the INVALID_JSON_OBJECT error code
and no event is enqueued on any session queue (the state is unchanged), for
any transaction and any sdp arguments. -/
theorem C3_push_event_non_object (ext : Externals) (ph : janus_pluginession)
    (p : janus_plugin) (ih : janus_ice_handle) (sid : Nat) (t : Option String)
    (j : Json) (sdp_type sdp : Option String) (st : GatewayState)
    (hgw : ph.gateway_handle = some ih) (hs : ih.session = some sid)
    (hobj : j.is_object = false) :
    janus_push_event ext (some ph) (some p) t (some (some j)) sdp_type sdp st
      = (PushRet.err ApiError.invalidJsonObject, st) := by
  simp [janus_push_event, hgw, hs, hobj]

/-- C3 witness: a concrete push of the string literal "hi", which is valid
JSON but not an object, is rejected with INVALID_JSON_OBJECT and leaves the
state untouched. -/
theorem C3_witness :
    janus_push_event extOk (some ⟨some ⟨7, some 1, none, false, 0, 0⟩⟩)
      (some videocallPlugin) (some "t") (some (some (Json.str "hi"))) none none
      ⟨[(1, ⟨1, [], 0, []⟩)], 0⟩
      = (PushRet.err ApiError.invalidJsonObject, ⟨[(1, ⟨1, [], 0, []⟩)], 0⟩) :=
  C3_push_event_non_object extOk ⟨some ⟨7, some 1, none, false, 0, 0⟩⟩
    videocallPlugin ⟨7, some 1, none, false, 0, 0⟩ 1 (some "t") (Json.str "hi")
    none none ⟨[(1, ⟨1, [], 0, []⟩)], 0⟩ rfl rfl rfl

/-- C10: push_event returns the raw -1 (a value apart from every taxonomy
code) when the handle, the plugin or the message argument is NULL, and
SESSION_NOT_FOUND when the gateway handle or the session back-reference is
NULL; in each case the state, hence every session queue, is unchanged. -/
theorem C10_push_event_null_guards (ext : Externals)
    (handle : Option janus_pluginession) (plugin : Option janus_plugin)
    (t : Option String) (message : Option (Option Json))
    (sdp_type sdp : Option String) (st : GatewayState) :
    (janus_push_event ext none plugin t message sdp_type sdp st
        = (PushRet.minusOne, st))
    ∧ (janus_push_event ext handle none t message sdp_type sdp st
        = (PushRet.minusOne, st))
    ∧ (janus_push_event ext handle plugin t none sdp_type sdp st
        = (PushRet.minusOne, st))
    ∧ (∀ ph p pj, ph.gateway_handle = none →
        janus_push_event ext (some ph) (some p) t (some pj) sdp_type sdp st
          = (PushRet.err ApiError.sessionNotFound, st))
    ∧ (∀ ph p pj ih, ph.gateway_handle = some ih → ih.session = none →
        janus_push_event ext (some ph) (some p) t (some pj) sdp_type sdp st
          = (PushRet.err ApiError.sessionNotFound, st))
    ∧ (∀ e : ApiError, PushRet.minusOne ≠ PushRet.err e) := by
  refine ⟨?_, ?_, ?_, ?_, ?_, ?_⟩
  · cases plugin <;> cases message <;> rfl
  · cases handle <;> cases message <;> rfl
  · cases handle <;> cases plugin <;> rfl
  · intro ph p pj hgw
    simp [janus_push_event, hgw]
  · intro ph p pj ih hgw hs
    simp [janus_push_event, hgw, hs]
  · intro e h
    cases h

/-- C10 witness: a concrete call with a NULL handle returns -1 on an
unchanged state, and a concrete call whose gateway handle is NULL returns
SESSION_NOT_FOUND. -/
theorem C10_witness :
    janus_push_event extOk none (some videocallPlugin) (some "t")
      (some (some (Json.obj []))) none none ⟨[], 0⟩ = (PushRet.minusOne, ⟨[], 0⟩)
    ∧ janus_push_event extOk (some ⟨none⟩) (some videocallPlugin) (some "t")
      (some (some (Json.obj []))) none none ⟨[], 0⟩
        = (PushRet.err ApiError.sessionNotFound, ⟨[], 0⟩) :=
  ⟨(C10_push_event_null_guards extOk none (some videocallPlugin) (some "t")
      (some (some (Json.obj []))) none none ⟨[], 0⟩).1,
    (C10_push_event_null_guards extOk (some ⟨none⟩) (some videocallPlugin) (some "t")
      (some (some (Json.obj []))) none none ⟨[], 0⟩).2.2.2.1 ⟨none⟩ videocallPlugin
      (some (Json.obj [])) rfl⟩

/-- C2 counterexample: the id is not a freshly drawn random 64-bit value.
With the draw stream constantly 2^32 + 7 and an empty table, the code
(janus_session_create, whose g_random_int yields 32 bits) allocates id
7 = (2^32 + 7) mod 2^32, while the spec reading with a 64-bit draw
(janus_session_create_spec64) allocates the drawn value 2^32 + 7 itself. -/
theorem C2_counterexample :
    (janus_session_create (fun _ => 4294967303) 1 extOk ⟨[], 0⟩).1
        = some ⟨7, [], 0, []⟩
    ∧ (janus_session_create_spec64 (fun _ => 4294967303) 1 extOk ⟨[], 0⟩).1
        = some ⟨4294967303, [], 0, []⟩
    ∧ (7 : Nat) ≠ 4294967303 :=
  ⟨rfl, rfl, by decide⟩

/-- C2 (amended): every successful create request allocates a session whose
id is freshly drawn through g_random_int, hence 0 < id < 2^32, retrying
until the draw is free; the id is not previously in the session table, the
session is registered under it, and the success envelope carries it in
data.id. -/
theorem C2_create_success (ext : Externals) (plugins : List (String × janus_plugin))
    (rng : Nat → Nat) (fuel : Nat) (ws_path : String) (msg : janus_http_msg)
    (st : GatewayState) (root : Json) (t jt : String) (sid : Nat)
    (halloc : ext.alloc_ok = true)
    (hobj : root.is_object = true)
    (ht : root.object_get "transaction" = some (Json.str t))
    (hj : root.object_get "janus" = some (Json.str jt))
    (hcreate : strcaseeq jt "create" = true)
    (hpick : pickFreshId rng (st.sessions.map Prod.fst) 0 fuel = some sid) :
    (janus_ws_handler ext plugins rng fuel ws_path
        ⟨"POST", .parsed none none false, some (some root)⟩ msg st).response
      = some ⟨200, ("Content-Type", "application/json") :: corsHeaders msg,
          some (.dumped (janus_success_with_id t sid))⟩
    ∧ 0 < sid ∧ sid < 4294967296
    ∧ tlookup st.sessions sid = none
    ∧ tlookup (janus_ws_handler ext plugins rng fuel ws_path
        ⟨"POST", .parsed none none false, some (some root)⟩ msg st).state.sessions sid
      = some ⟨sid, [], 0, []⟩ := by
  have hspec := pickFreshId_spec rng (st.sessions.map Prod.fst) fuel 0 sid hpick
  have hrun : janus_ws_handler ext plugins rng fuel ws_path
      ⟨"POST", .parsed none none false, some (some root)⟩ msg st
      = ⟨janus_ws_success msg (some (.dumped (janus_success_with_id t sid))),
          ⟨tinsert st.sessions sid ⟨sid, [], 0, []⟩, st.stop⟩, []⟩ := by
    have hb1 : strcaseeq "POST" "GET" = false := rfl
    have hb2 : strcaseeq "POST" "POST" = true := rfl
    have hb3 : strcaseeq "POST" "OPTIONS" = false := rfl
    simp [janus_ws_handler, janus_ws_create_branch, janus_session_create,
      hb1, hb2, hb3, hpick, halloc, hobj, ht, hj, hcreate]
  refine ⟨?_, hspec.1, hspec.2.1, ?_, ?_⟩
  · rw [hrun]
    rfl
  · exact tlookup_eq_none_of_not_mem st.sessions sid hspec.2.2
  · rw [hrun]
    exact tlookup_tinsert st.sessions sid ⟨sid, [], 0, []⟩

/-- C2 witness: a concrete create on an empty table with draw stream 42
succeeds with id 42, fresh and registered. -/
theorem C2_witness :
    (janus_ws_handler extOk [] (fun _ => 42) 1 "/janus"
        ⟨"POST", .parsed none none false,
          some (some (Json.obj [("janus", Json.str "create"),
            ("transaction", Json.str "t1")]))⟩ ⟨none, none, 0⟩ ⟨[], 0⟩).response
      = some ⟨200, ("Content-Type", "application/json")
            :: corsHeaders ⟨none, none, 0⟩,
          some (.dumped (janus_success_with_id "t1" 42))⟩
    ∧ 0 < 42 ∧ 42 < 4294967296
    ∧ tlookup (GatewayState.sessions ⟨[], 0⟩) 42 = none
    ∧ tlookup (janus_ws_handler extOk [] (fun _ => 42) 1 "/janus"
        ⟨"POST", .parsed none none false,
          some (some (Json.obj [("janus", Json.str "create"),
            ("transaction", Json.str "t1")]))⟩ ⟨none, none, 0⟩ ⟨[], 0⟩).state.sessions 42
      = some ⟨42, [], 0, []⟩ :=
  C2_create_success extOk [] (fun _ => 42) 1 "/janus" ⟨none, none, 0⟩ ⟨[], 0⟩
    (Json.obj [("janus", Json.str "create"), ("transaction", Json.str "t1")])
    "t1" "create" 42 rfl rfl rfl rfl rfl rfl

theorem tlookup_setSession (st : GatewayState) (sid : Nat) (s1 s : janus_session)
    (hfind : tlookup st.sessions sid = some s) :
    tlookup (setSession st sid s1).sessions sid = some s1 := by
  have h := tlookup_update (fun _ => s1) st.sessions sid
  unfold setSession
  rw [h, hfind]
  rfl

theorem tlookup_pushToSession (st : GatewayState) (sid : Nat) (e : janus_http_event)
    (s : janus_session) (hfind : tlookup st.sessions sid = some s) :
    tlookup (pushToSession st sid e).sessions sid
      = some ⟨s.session_id, s.messages ++ [e], s.destroy, s.ice_handles⟩ := by
  have h := tlookup_update
    (fun q => (⟨q.session_id, q.messages ++ [e], q.destroy, q.ice_handles⟩ : janus_session))
    st.sessions sid
  unfold pushToSession
  rw [h, hfind]
  rfl

theorem push_event_ok (ext : Externals) (ph : janus_pluginession) (p : janus_plugin)
    (ih : janus_ice_handle) (sid : Nat) (t : Option String) (m : Json)
    (st : GatewayState)
    (hgw : ph.gateway_handle = some ih) (hs : ih.session = some sid)
    (hobj : m.is_object = true) (halloc : ext.alloc_ok = true) :
    janus_push_event ext (some ph) (some p) t (some (some m)) none none st
      = (PushRet.ok, pushToSession st sid
          ⟨200, some (.dumped (janus_event_envelope ih.handle_id t p.package m none)),
            true⟩) := by
  simp [janus_push_event, hgw, hs, hobj, halloc]

theorem handler_get_step (ext : Externals) (plugins : List (String × janus_plugin))
    (rng : Nat → Nat) (fuel : Nat) (ws_path sp : String) (msg : janus_http_msg)
    (st : GatewayState) (sid : Nat) (s : janus_session) (e : janus_http_event)
    (rest : List janus_http_event)
    (hsp : g_ascii_strtoll sp = (sid : Int)) (hpos : 0 < sid)
    (halloc : ext.alloc_ok = true)
    (hfind : tlookup st.sessions sid = some s)
    (hmsg : s.messages = e :: rest) :
    janus_ws_handler ext plugins rng fuel ws_path
        ⟨"GET", .parsed (some sp) none false, none⟩ msg st
      = ⟨janus_ws_success ⟨msg.acrm, msg.acrh, sid⟩ e.payload,
          setSession st sid ⟨s.session_id, rest, s.destroy, s.ice_handles⟩, []⟩ := by
  have hb1 : strcaseeq "GET" "GET" = true := rfl
  have hb2 : strcaseeq "GET" "POST" = false := rfl
  have hb3 : strcaseeq "GET" "OPTIONS" = false := rfl
  have hlt : ¬ (g_ascii_strtoll sp < 1) := by
    rw [hsp]
    omega
  have htn : (g_ascii_strtoll sp).toNat = sid := by
    rw [hsp]
    exact Int.toNat_natCast sid
  simp [janus_ws_handler, janus_ws_get_branch, janus_session_find, hb1, hb2, hb3,
    halloc, hlt, htn, hfind, hmsg, queuePop]

theorem handler_get_keepalive (ext : Externals) (plugins : List (String × janus_plugin))
    (rng : Nat → Nat) (fuel : Nat) (ws_path sp : String) (msg : janus_http_msg)
    (st : GatewayState) (sid : Nat) (s : janus_session)
    (hsp : g_ascii_strtoll sp = (sid : Int)) (hpos : 0 < sid)
    (halloc : ext.alloc_ok = true)
    (hfind : tlookup st.sessions sid = some s)
    (hmsg : s.messages = [])
    (hquiet : ∀ i, ext.arrive i = []) :
    (janus_ws_handler ext plugins rng fuel ws_path
        ⟨"GET", .parsed (some sp) none false, none⟩ msg st).response
      = some ⟨200, ("Content-Type", "application/json")
            :: corsHeaders ⟨msg.acrm, msg.acrh, sid⟩,
          some (.raw keepaliveText)⟩ := by
  have hb1 : strcaseeq "GET" "GET" = true := rfl
  have hb2 : strcaseeq "GET" "POST" = false := rfl
  have hb3 : strcaseeq "GET" "OPTIONS" = false := rfl
  have hlt : ¬ (g_ascii_strtoll sp < 1) := by
    rw [hsp]
    omega
  have htn : (g_ascii_strtoll sp).toNat = sid := by
    rw [hsp]
    exact Int.toNat_natCast sid
  have hloop := notifierLoop_empty ext.arrive st.stop hquiet 300 0
  simp [janus_ws_handler, janus_ws_get_branch, janus_ws_notifier, janus_session_find,
    janus_ws_success, hb1, hb2, hb3, halloc, hlt, htn, hfind, hmsg, queuePop, hloop]

/-- C4 counterexample: the keep-alive body is not the literal
\x7b"janus":"keepalive"\x7d. A concrete GET on a session with an empty queue
and no arriving events runs the full 300-round poll loop and serves the
source literal, which has spaces around the colon. -/
theorem C4_counterexample :
    (janus_ws_handler extOk [] (fun _ => 0) 1 "/janus"
        ⟨"GET", .parsed (some "1") none false, none⟩ ⟨none, none, 0⟩
        ⟨[(1, ⟨1, [], 0, []⟩)], 0⟩).response
      = some ⟨200, ("Content-Type", "application/json")
            :: corsHeaders ⟨none, none, 1⟩,
          some (.raw keepaliveText)⟩
    ∧ keepaliveText ≠ "\x7b\"janus\":\"keepalive\"\x7d" := by
  constructor
  · exact handler_get_keepalive extOk [] (fun _ => 0) 1 "/janus" "1" ⟨none, none, 0⟩
      ⟨[(1, ⟨1, [], 0, []⟩)], 0⟩ 1 ⟨1, [], 0, []⟩ rfl (by decide) rfl rfl rfl
      (fun _ => rfl)
  · decide

/-- C4 (amended): a GET on a session URL whose session exists serves the head
of the event queue as application/json when the queue is non-empty, and when
the queue is empty and no event arrives during the bounded 300-round 100 ms
poll (or the stop flag is set), it serves the keep-alive body
\x7b"janus" : "keepalive"\x7d — the literal of janus.c line 794, with spaces
around the colon — also as application/json. -/
theorem C4_get_head_or_keepalive (ext : Externals)
    (plugins : List (String × janus_plugin)) (rng : Nat → Nat) (fuel : Nat)
    (ws_path sp : String) (msg : janus_http_msg) (st : GatewayState)
    (sid : Nat) (s : janus_session)
    (hsp : g_ascii_strtoll sp = (sid : Int)) (hpos : 0 < sid)
    (halloc : ext.alloc_ok = true)
    (hfind : tlookup st.sessions sid = some s) :
    (∀ e rest p, s.messages = e :: rest → e.payload = some p →
      (janus_ws_handler ext plugins rng fuel ws_path
          ⟨"GET", .parsed (some sp) none false, none⟩ msg st).response
        = some ⟨200, ("Content-Type", "application/json")
              :: corsHeaders ⟨msg.acrm, msg.acrh, sid⟩, some p⟩)
    ∧ (s.messages = [] → (∀ i, ext.arrive i = []) →
      (janus_ws_handler ext plugins rng fuel ws_path
          ⟨"GET", .parsed (some sp) none false, none⟩ msg st).response
        = some ⟨200, ("Content-Type", "application/json")
              :: corsHeaders ⟨msg.acrm, msg.acrh, sid⟩,
            some (.raw keepaliveText)⟩) := by
  constructor
  · intro e rest p hmsg hp
    rw [handler_get_step ext plugins rng fuel ws_path sp msg st sid s e rest
      hsp hpos halloc hfind hmsg]
    simp [janus_ws_success, hp]
  · intro hmsg hquiet
    exact handler_get_keepalive ext plugins rng fuel ws_path sp msg st sid s
      hsp hpos halloc hfind hmsg hquiet

/-- C4 witness: on a session holding one queued event the GET serves its
payload; on a session with an empty queue it serves the keep-alive. -/
theorem C4_witness :
    (janus_ws_handler extOk [] (fun _ => 0) 1 "/janus"
        ⟨"GET", .parsed (some "1") none false, none⟩ ⟨none, none, 0⟩
        ⟨[(1, ⟨1, [⟨200, some (.raw "ev1"), false⟩], 0, []⟩)], 0⟩).response
      = some ⟨200, ("Content-Type", "application/json")
            :: corsHeaders ⟨none, none, 1⟩, some (.raw "ev1")⟩
    ∧ (janus_ws_handler extOk [] (fun _ => 0) 1 "/janus"
        ⟨"GET", .parsed (some "1") none false, none⟩ ⟨none, none, 0⟩
        ⟨[(1, ⟨1, [], 0, []⟩)], 0⟩).response
      = some ⟨200, ("Content-Type", "application/json")
            :: corsHeaders ⟨none, none, 1⟩, some (.raw keepaliveText)⟩ :=
  ⟨(C4_get_head_or_keepalive extOk [] (fun _ => 0) 1 "/janus" "1" ⟨none, none, 0⟩
      ⟨[(1, ⟨1, [⟨200, some (.raw "ev1"), false⟩], 0, []⟩)], 0⟩ 1
      ⟨1, [⟨200, some (.raw "ev1"), false⟩], 0, []⟩ rfl (by decide) rfl rfl).1
      ⟨200, some (.raw "ev1"), false⟩ [] (.raw "ev1") rfl rfl,
    (C4_get_head_or_keepalive extOk [] (fun _ => 0) 1 "/janus" "1" ⟨none, none, 0⟩
      ⟨[(1, ⟨1, [], 0, []⟩)], 0⟩ 1 ⟨1, [], 0, []⟩ rfl (by decide) rfl rfl).2
      rfl (fun _ => rfl)⟩

/-- The queue entry janus_push_event builds for a message-only plugin event:
the dumped event envelope, status 200, gateway-owned. -/
def eventOf (ih : janus_ice_handle) (t : Option String) (p : janus_plugin)
    (m : Json) : janus_http_event :=
  ⟨200, some (.dumped (janus_event_envelope ih.handle_id t p.package m none)), true⟩

/-- C5: per-session FIFO delivery. Three events pushed through the plugin
push_event callback land at the tail of the session queue in order, and three
successive long-poll GETs on that session serve exactly their three envelopes
in the same order, leaving the queue empty (each event delivered once). -/
theorem C5_fifo_delivery (ext : Externals) (plugins : List (String × janus_plugin))
    (rng : Nat → Nat) (fuel : Nat) (ws_path sp : String) (msg : janus_http_msg)
    (st : GatewayState) (sid : Nat) (s : janus_session)
    (ph1 ph2 ph3 : janus_pluginession) (ih1 ih2 ih3 : janus_ice_handle)
    (p1 p2 p3 : janus_plugin) (t1 t2 t3 : Option String) (m1 m2 m3 : Json)
    (hsp : g_ascii_strtoll sp = (sid : Int)) (hpos : 0 < sid)
    (halloc : ext.alloc_ok = true)
    (hfind : tlookup st.sessions sid = some s) (hempty : s.messages = [])
    (hgw1 : ph1.gateway_handle = some ih1) (hs1 : ih1.session = some sid)
    (ho1 : m1.is_object = true)
    (hgw2 : ph2.gateway_handle = some ih2) (hs2 : ih2.session = some sid)
    (ho2 : m2.is_object = true)
    (hgw3 : ph3.gateway_handle = some ih3) (hs3 : ih3.session = some sid)
    (ho3 : m3.is_object = true) :
    janus_push_event ext (some ph1) (some p1) t1 (some (some m1)) none none st
      = (PushRet.ok, pushToSession st sid (eventOf ih1 t1 p1 m1))
    ∧ janus_push_event ext (some ph2) (some p2) t2 (some (some m2)) none none
        (pushToSession st sid (eventOf ih1 t1 p1 m1))
      = (PushRet.ok, pushToSession (pushToSession st sid (eventOf ih1 t1 p1 m1)) sid
          (eventOf ih2 t2 p2 m2))
    ∧ janus_push_event ext (some ph3) (some p3) t3 (some (some m3)) none none
        (pushToSession (pushToSession st sid (eventOf ih1 t1 p1 m1)) sid
          (eventOf ih2 t2 p2 m2))
      = (PushRet.ok, pushToSession (pushToSession
          (pushToSession st sid (eventOf ih1 t1 p1 m1)) sid (eventOf ih2 t2 p2 m2)) sid
          (eventOf ih3 t3 p3 m3))
    ∧ (janus_ws_handler ext plugins rng fuel ws_path
        ⟨"GET", .parsed (some sp) none false, none⟩ msg
        (pushToSession (pushToSession (pushToSession st sid (eventOf ih1 t1 p1 m1))
          sid (eventOf ih2 t2 p2 m2)) sid (eventOf ih3 t3 p3 m3))).response
      = some ⟨200, ("Content-Type", "application/json")
            :: corsHeaders ⟨msg.acrm, msg.acrh, sid⟩,
          some (.dumped (janus_event_envelope ih1.handle_id t1 p1.package m1 none))⟩
    ∧ (janus_ws_handler ext plugins rng fuel ws_path
        ⟨"GET", .parsed (some sp) none false, none⟩ msg
        (janus_ws_handler ext plugins rng fuel ws_path
          ⟨"GET", .parsed (some sp) none false, none⟩ msg
          (pushToSession (pushToSession (pushToSession st sid (eventOf ih1 t1 p1 m1))
            sid (eventOf ih2 t2 p2 m2)) sid (eventOf ih3 t3 p3 m3))).state).response
      = some ⟨200, ("Content-Type", "application/json")
            :: corsHeaders ⟨msg.acrm, msg.acrh, sid⟩,
          some (.dumped (janus_event_envelope ih2.handle_id t2 p2.package m2 none))⟩
    ∧ (janus_ws_handler ext plugins rng fuel ws_path
        ⟨"GET", .parsed (some sp) none false, none⟩ msg
        (janus_ws_handler ext plugins rng fuel ws_path
          ⟨"GET", .parsed (some sp) none false, none⟩ msg
          (janus_ws_handler ext plugins rng fuel ws_path
            ⟨"GET", .parsed (some sp) none false, none⟩ msg
            (pushToSession (pushToSession (pushToSession st sid (eventOf ih1 t1 p1 m1))
              sid (eventOf ih2 t2 p2 m2)) sid (eventOf ih3 t3 p3 m3))).state).state).response
      = some ⟨200, ("Content-Type", "application/json")
            :: corsHeaders ⟨msg.acrm, msg.acrh, sid⟩,
          some (.dumped (janus_event_envelope ih3.handle_id t3 p3.package m3 none))⟩
    ∧ tlookup (janus_ws_handler ext plugins rng fuel ws_path
        ⟨"GET", .parsed (some sp) none false, none⟩ msg
        (janus_ws_handler ext plugins rng fuel ws_path
          ⟨"GET", .parsed (some sp) none false, none⟩ msg
          (janus_ws_handler ext plugins rng fuel ws_path
            ⟨"GET", .parsed (some sp) none false, none⟩ msg
            (pushToSession (pushToSession (pushToSession st sid (eventOf ih1 t1 p1 m1))
              sid (eventOf ih2 t2 p2 m2)) sid
              (eventOf ih3 t3 p3 m3))).state).state).state.sessions sid
      = some ⟨s.session_id, [], s.destroy, s.ice_handles⟩ := by
  have h1 := push_event_ok ext ph1 p1 ih1 sid t1 m1 st hgw1 hs1 ho1 halloc
  have h2 := push_event_ok ext ph2 p2 ih2 sid t2 m2
    (pushToSession st sid (eventOf ih1 t1 p1 m1)) hgw2 hs2 ho2 halloc
  have h3 := push_event_ok ext ph3 p3 ih3 sid t3 m3
    (pushToSession (pushToSession st sid (eventOf ih1 t1 p1 m1)) sid
      (eventOf ih2 t2 p2 m2)) hgw3 hs3 ho3 halloc
  have hfa := tlookup_pushToSession st sid (eventOf ih1 t1 p1 m1) s hfind
  rw [hempty] at hfa
  simp only [List.nil_append] at hfa
  have hfb := tlookup_pushToSession (pushToSession st sid (eventOf ih1 t1 p1 m1)) sid
    (eventOf ih2 t2 p2 m2) ⟨s.session_id, [eventOf ih1 t1 p1 m1], s.destroy, s.ice_handles⟩
    hfa
  simp only [List.cons_append, List.nil_append] at hfb
  have hfc := tlookup_pushToSession (pushToSession (pushToSession st sid
    (eventOf ih1 t1 p1 m1)) sid (eventOf ih2 t2 p2 m2)) sid (eventOf ih3 t3 p3 m3)
    ⟨s.session_id, [eventOf ih1 t1 p1 m1, eventOf ih2 t2 p2 m2], s.destroy, s.ice_handles⟩
    hfb
  simp only [List.cons_append, List.nil_append] at hfc
  have g1 := handler_get_step ext plugins rng fuel ws_path sp msg
    (pushToSession (pushToSession (pushToSession st sid (eventOf ih1 t1 p1 m1)) sid
      (eventOf ih2 t2 p2 m2)) sid (eventOf ih3 t3 p3 m3)) sid
    ⟨s.session_id, [eventOf ih1 t1 p1 m1, eventOf ih2 t2 p2 m2, eventOf ih3 t3 p3 m3],
      s.destroy, s.ice_handles⟩
    (eventOf ih1 t1 p1 m1) [eventOf ih2 t2 p2 m2, eventOf ih3 t3 p3 m3]
    hsp hpos halloc hfc rfl
  have hfd := tlookup_setSession (pushToSession (pushToSession (pushToSession st sid
      (eventOf ih1 t1 p1 m1)) sid (eventOf ih2 t2 p2 m2)) sid (eventOf ih3 t3 p3 m3)) sid
    ⟨s.session_id, [eventOf ih2 t2 p2 m2, eventOf ih3 t3 p3 m3], s.destroy, s.ice_handles⟩
    ⟨s.session_id, [eventOf ih1 t1 p1 m1, eventOf ih2 t2 p2 m2, eventOf ih3 t3 p3 m3],
      s.destroy, s.ice_handles⟩ hfc
  have g2 := handler_get_step ext plugins rng fuel ws_path sp msg
    ((janus_ws_handler ext plugins rng fuel ws_path
      ⟨"GET", .parsed (some sp) none false, none⟩ msg
      (pushToSession (pushToSession (pushToSession st sid (eventOf ih1 t1 p1 m1)) sid
        (eventOf ih2 t2 p2 m2)) sid (eventOf ih3 t3 p3 m3))).state) sid
    ⟨s.session_id, [eventOf ih2 t2 p2 m2, eventOf ih3 t3 p3 m3], s.destroy, s.ice_handles⟩
    (eventOf ih2 t2 p2 m2) [eventOf ih3 t3 p3 m3] hsp hpos halloc
    (by rw [g1]; exact hfd) rfl
  have hfe := tlookup_setSession ((janus_ws_handler ext plugins rng fuel ws_path
      ⟨"GET", .parsed (some sp) none false, none⟩ msg
      (pushToSession (pushToSession (pushToSession st sid (eventOf ih1 t1 p1 m1)) sid
        (eventOf ih2 t2 p2 m2)) sid (eventOf ih3 t3 p3 m3))).state) sid
    ⟨s.session_id, [eventOf ih3 t3 p3 m3], s.destroy, s.ice_handles⟩
    ⟨s.session_id, [eventOf ih2 t2 p2 m2, eventOf ih3 t3 p3 m3], s.destroy, s.ice_handles⟩
    (by rw [g1]; exact hfd)
  have g3 := handler_get_step ext plugins rng fuel ws_path sp msg
    ((janus_ws_handler ext plugins rng fuel ws_path
      ⟨"GET", .parsed (some sp) none false, none⟩ msg
      ((janus_ws_handler ext plugins rng fuel ws_path
        ⟨"GET", .parsed (some sp) none false, none⟩ msg
        (pushToSession (pushToSession (pushToSession st sid (eventOf ih1 t1 p1 m1)) sid
          (eventOf ih2 t2 p2 m2)) sid (eventOf ih3 t3 p3 m3))).state)).state) sid
    ⟨s.session_id, [eventOf ih3 t3 p3 m3], s.destroy, s.ice_handles⟩
    (eventOf ih3 t3 p3 m3) [] hsp hpos halloc (by rw [g2]; exact hfe) rfl
  have hff := tlookup_setSession ((janus_ws_handler ext plugins rng fuel ws_path
      ⟨"GET", .parsed (some sp) none false, none⟩ msg
      ((janus_ws_handler ext plugins rng fuel ws_path
        ⟨"GET", .parsed (some sp) none false, none⟩ msg
        (pushToSession (pushToSession (pushToSession st sid (eventOf ih1 t1 p1 m1)) sid
          (eventOf ih2 t2 p2 m2)) sid (eventOf ih3 t3 p3 m3))).state)).state) sid
    ⟨s.session_id, [], s.destroy, s.ice_handles⟩
    ⟨s.session_id, [eventOf ih3 t3 p3 m3], s.destroy, s.ice_handles⟩
    (by rw [g2]; exact hfe)
  refine ⟨h1, h2, h3, ?_, ?_, ?_, ?_⟩
  · rw [g1]
    simp [eventOf, janus_ws_success]
  · rw [g2]
    simp [eventOf, janus_ws_success]
  · rw [g3]
    simp [eventOf, janus_ws_success]
  · rw [g3]
    exact hff

/-- C5 witness: on a concrete session 1 with three concrete events pushed by
three handles, the first long-poll GET serves the envelope of the first
event. -/
theorem C5_witness :
    (janus_ws_handler extOk [] (fun _ => 0) 1 "/janus"
        ⟨"GET", .parsed (some "1") none false, none⟩ ⟨none, none, 0⟩
        (pushToSession (pushToSession (pushToSession ⟨[(1, ⟨1, [], 0, []⟩)], 0⟩ 1
          (eventOf ⟨11, some 1, none, false, 0, 0⟩ (some "t1") videocallPlugin
            (Json.obj [("n", Json.num 1)]))) 1
          (eventOf ⟨12, some 1, none, false, 0, 0⟩ (some "t2") videocallPlugin
            (Json.obj [("n", Json.num 2)]))) 1
          (eventOf ⟨13, some 1, none, false, 0, 0⟩ (some "t3") videocallPlugin
            (Json.obj [("n", Json.num 3)])))).response
      = some ⟨200, ("Content-Type", "application/json")
            :: corsHeaders ⟨none, none, 1⟩,
          some (.dumped (janus_event_envelope 11 (some "t1")
            videocallPlugin.package (Json.obj [("n", Json.num 1)]) none))⟩ :=
  (C5_fifo_delivery extOk [] (fun _ => 0) 1 "/janus" "1" ⟨none, none, 0⟩
    ⟨[(1, ⟨1, [], 0, []⟩)], 0⟩ 1 ⟨1, [], 0, []⟩
    ⟨some ⟨11, some 1, none, false, 0, 0⟩⟩ ⟨some ⟨12, some 1, none, false, 0, 0⟩⟩
    ⟨some ⟨13, some 1, none, false, 0, 0⟩⟩
    ⟨11, some 1, none, false, 0, 0⟩ ⟨12, some 1, none, false, 0, 0⟩
    ⟨13, some 1, none, false, 0, 0⟩
    videocallPlugin videocallPlugin videocallPlugin
    (some "t1") (some "t2") (some "t3")
    (Json.obj [("n", Json.num 1)]) (Json.obj [("n", Json.num 2)])
    (Json.obj [("n", Json.num 3)])
    rfl (by decide) rfl rfl rfl rfl rfl rfl rfl rfl rfl rfl rfl rfl).2.2.2.1

/-- C1: evaluation of the destroy flow on a session holding one attached
handle. janus_session_destroy marks the destroy flag and removes the session
from the table, but the handle stays attached inside the orphaned session
record and the destroy request makes no plugin call at all (empty trace), so
no handle is detached and no destroy_session runs, contrary to the claim;
the removal walk is only a TODO comment in janus.c lines 141-157. -/
theorem C1_destroy_leaves_handles :
    janus_session_destroy
        ⟨[(1, ⟨1, [], 0, [(2, ⟨2, some 1, some videocallPlugin, true, 0, 0⟩)]⟩)], 0⟩ 1
      = (0, ⟨[], 0⟩,
          some ⟨1, [], 1, [(2, ⟨2, some 1, some videocallPlugin, true, 0, 0⟩)]⟩)
    ∧ janus_ws_handler extOk [("janus.plugin.videocall", videocallPlugin)]
        (fun _ => 0) 1 "/janus"
        ⟨"POST", .parsed (some "1") none false,
          some (some (Json.obj [("janus", Json.str "destroy"),
            ("transaction", Json.str "t")]))⟩
        ⟨none, none, 0⟩
        ⟨[(1, ⟨1, [], 0, [(2, ⟨2, some 1, some videocallPlugin, true, 0, 0⟩)]⟩)], 0⟩
      = ⟨some ⟨200, ("Content-Type", "application/json") :: corsHeaders ⟨none, none, 1⟩,
            some (.dumped (janus_success_plain "t"))⟩,
          ⟨[], 0⟩, []⟩ :=
  ⟨rfl, rfl⟩

/-- C7: a message POST at handle scope whose envelope lacks the body object
is answered with the INVALID_JSON error code (janus.c line 593), not with
MISSING_MANDATORY_ELEMENT, although its reason text says missing mandatory
element (body); the plugin handle_message is not invoked (empty trace) and
the state is unchanged. -/
theorem C7_missing_body_code :
    janus_ws_handler extOk [("janus.plugin.videocall", videocallPlugin)]
        (fun _ => 0) 1 "/janus"
        ⟨"POST", .parsed (some "1") (some "2") false,
          some (some (Json.obj [("janus", Json.str "message"),
            ("transaction", Json.str "t")]))⟩
        ⟨none, none, 0⟩
        ⟨[(1, ⟨1, [], 0, [(2, ⟨2, some 1, some videocallPlugin, true, 0, 0⟩)]⟩)], 0⟩
      = ⟨some ⟨200, ("Content-Type", "application/json") :: corsHeaders ⟨none, none, 1⟩,
            some (.dumped (Json.obj [("janus", Json.str "error"),
              ("transaction", Json.str "t"),
              ("error", Json.obj [("code", Json.code ApiError.invalidJson),
                ("reason",
                  Json.str "JSON error: missing mandatory element (body)")])]))⟩,
          ⟨[(1, ⟨1, [], 0, [(2, ⟨2, some 1, some videocallPlugin, true, 0, 0⟩)]⟩)], 0⟩,
          []⟩
    ∧ ApiError.invalidJson ≠ ApiError.missingMandatoryElement :=
  ⟨rfl, by decide⟩

/-- C6: for an attach request naming a registered plugin whose create_session
fails, the half-created handle is destroyed again, so the session record and
the handle table are exactly as before the request; the only plugin call is
the failed create_session, and the response is the PLUGIN_ATTACH error
envelope. -/
theorem C6_attach_rollback (ext : Externals) (plugins : List (String × janus_plugin))
    (rng : Nat → Nat) (fuel : Nat) (ws_path sp : String) (msg : janus_http_msg)
    (st : GatewayState) (sid : Nat) (s : janus_session) (root : Json)
    (t jt pkg : String) (p : janus_plugin) (hid : Nat)
    (halloc : ext.alloc_ok = true)
    (hsp : g_ascii_strtoll sp = (sid : Int)) (hpos : 0 < sid)
    (hobj : root.is_object = true)
    (ht : root.object_get "transaction" = some (Json.str t))
    (hj : root.object_get "janus" = some (Json.str jt))
    (hattach : strcaseeq jt "attach" = true)
    (hplug : root.object_get "plugin" = some (Json.str pkg))
    (hreg : (plugins.find? (fun q => q.1 = pkg)).map Prod.snd = some p)
    (hfail : p.create_session_error ≠ 0)
    (hfind : tlookup st.sessions sid = some s)
    (hpick : pickFreshId rng (s.ice_handles.map Prod.fst) 0 fuel = some hid) :
    janus_ws_handler ext plugins rng fuel ws_path
        ⟨"POST", .parsed (some sp) none false, some (some root)⟩ msg st
      = ⟨janus_ws_error ext ⟨msg.acrm, msg.acrh, sid⟩ (some t) .pluginAttach
          "Couldn\x27t attach to plugin: error \x27%d\x27",
          setSession st sid s, [ExtCall.create_session p.package hid]⟩
    ∧ tlookup (janus_ws_handler ext plugins rng fuel ws_path
        ⟨"POST", .parsed (some sp) none false, some (some root)⟩ msg st).state.sessions
        sid = some s := by
  have hb1 : strcaseeq "POST" "GET" = false := rfl
  have hb2 : strcaseeq "POST" "POST" = true := rfl
  have hb3 : strcaseeq "POST" "OPTIONS" = false := rfl
  have hlt : ¬ (g_ascii_strtoll sp < 1) := by
    rw [hsp]
    omega
  have htn : (g_ascii_strtoll sp).toNat = sid := by
    rw [hsp]
    exact Int.toNat_natCast sid
  have hfh : tlookup
      (tinsert s.ice_handles hid ⟨hid, some s.session_id, none, false, 0, 0⟩) hid
      = some ⟨hid, some s.session_id, none, false, 0, 0⟩ :=
    tlookup_tinsert s.ice_handles hid ⟨hid, some s.session_id, none, false, 0, 0⟩
  have hrem : tremove
      (tinsert s.ice_handles hid ⟨hid, some s.session_id, none, false, 0, 0⟩) hid
      = s.ice_handles :=
    tremove_tinsert_fresh s.ice_handles hid ⟨hid, some s.session_id, none, false, 0, 0⟩
      (pickFreshId_spec rng (s.ice_handles.map Prod.fst) fuel 0 hid hpick).2.2
  have hrun : janus_ws_handler ext plugins rng fuel ws_path
      ⟨"POST", .parsed (some sp) none false, some (some root)⟩ msg st
      = ⟨janus_ws_error ext ⟨msg.acrm, msg.acrh, sid⟩ (some t) .pluginAttach
          "Couldn\x27t attach to plugin: error \x27%d\x27",
          setSession st sid s, [ExtCall.create_session p.package hid]⟩ := by
    simp [janus_ws_handler, janus_ws_post_dispatch, janus_ws_attach_branch,
      janus_ice_handle_create, janus_ice_handle_attach_plugin,
      janus_ice_handle_destroy, janus_ice_handle_find, janus_session_find,
      hb1, hb2, hb3, hlt, htn, halloc, hobj, ht, hj, hattach, hplug, hreg,
      hfail, hfind, hpick, hfh, hrem]
  refine ⟨hrun, ?_⟩
  rw [hrun]
  exact tlookup_setSession st sid s s hfind

/-- C6 witness: a concrete attach to a registered plugin whose create_session
reports error -2 rolls back handle 5 and leaves session 1 exactly as it was,
with the failed create_session as the only plugin call. -/
theorem C6_witness :
    janus_ws_handler extOk [("janus.plugin.videocall", failingPlugin)] (fun _ => 5) 1
        "/janus"
        ⟨"POST", .parsed (some "1") none false,
          some (some (Json.obj [("janus", Json.str "attach"),
            ("plugin", Json.str "janus.plugin.videocall"),
            ("transaction", Json.str "t")]))⟩
        ⟨none, none, 0⟩ ⟨[(1, ⟨1, [], 0, []⟩)], 0⟩
      = ⟨janus_ws_error extOk ⟨none, none, 1⟩ (some "t") .pluginAttach
          "Couldn\x27t attach to plugin: error \x27%d\x27",
          setSession ⟨[(1, ⟨1, [], 0, []⟩)], 0⟩ 1 ⟨1, [], 0, []⟩,
          [ExtCall.create_session "janus.plugin.videocall" 5]⟩
    ∧ tlookup (janus_ws_handler extOk [("janus.plugin.videocall", failingPlugin)]
        (fun _ => 5) 1 "/janus"
        ⟨"POST", .parsed (some "1") none false,
          some (some (Json.obj [("janus", Json.str "attach"),
            ("plugin", Json.str "janus.plugin.videocall"),
            ("transaction", Json.str "t")]))⟩
        ⟨none, none, 0⟩ ⟨[(1, ⟨1, [], 0, []⟩)], 0⟩).state.sessions 1
      = some ⟨1, [], 0, []⟩ :=
  C6_attach_rollback extOk [("janus.plugin.videocall", failingPlugin)] (fun _ => 5) 1
    "/janus" "1" ⟨none, none, 0⟩ ⟨[(1, ⟨1, [], 0, []⟩)], 0⟩ 1 ⟨1, [], 0, []⟩
    (Json.obj [("janus", Json.str "attach"),
      ("plugin", Json.str "janus.plugin.videocall"), ("transaction", Json.str "t")])
    "t" "attach" "janus.plugin.videocall" failingPlugin 5
    rfl rfl (by decide) rfl rfl rfl rfl rfl rfl (by decide) rfl rfl

theorem strcaseeq_false_of (a b c : String) (h : strcaseeq a b = true)
    (hbc : strcaseeq b c = false) : strcaseeq a c = false := by
  unfold strcaseeq at h hbc ⊢
  rw [beq_iff_eq] at h
  rw [beq_eq_false_iff_ne] at hbc ⊢
  rw [h]
  exact hbc

/-- C8: a message POST whose jsep sdp fails the SDP pre-parse is answered
with the JSEP_INVALID_SDP error envelope; the plugin handle_message is not
invoked and no ICE call happens (empty trace), and the state is unchanged. -/
theorem C8_preparse_failure (ext : Externals) (plugins : List (String × janus_plugin))
    (rng : Nat → Nat) (fuel : Nat) (ws_path sp hp : String) (msg : janus_http_msg)
    (st : GatewayState) (sid hid : Nat) (s : janus_session) (h : janus_ice_handle)
    (p : janus_plugin) (root body jsep : Json) (t jt ty sdpStr : String)
    (halloc : ext.alloc_ok = true)
    (hsp : g_ascii_strtoll sp = (sid : Int)) (hpos : 0 < sid)
    (hhp : g_ascii_strtoll hp = (hid : Int)) (hhpos : 0 < hid)
    (hobj : root.is_object = true)
    (ht : root.object_get "transaction" = some (Json.str t))
    (hj : root.object_get "janus" = some (Json.str jt))
    (hverb : strcaseeq jt "message" = true)
    (hfind : tlookup st.sessions sid = some s)
    (hfh : tlookup s.ice_handles hid = some h)
    (happ : h.app = some p) (htok : h.app_handle = true)
    (hbody : root.object_get "body" = some body) (hbodyobj : body.is_object = true)
    (hjsep : root.object_get "jsep" = some jsep) (hjsepobj : jsep.is_object = true)
    (htype : jsep.object_get "type" = some (Json.str ty))
    (hty : strcaseeq ty "offer" = true ∨ strcaseeq ty "answer" = true)
    (hsdp : jsep.object_get "sdp" = some (Json.str sdpStr))
    (hpre : ext.sdp_preparse sdpStr = none) :
    janus_ws_handler ext plugins rng fuel ws_path
        ⟨"POST", .parsed (some sp) (some hp) false, some (some root)⟩ msg st
      = ⟨janus_ws_error ext ⟨msg.acrm, msg.acrh, sid⟩ (some t) .jsepInvalidSdp
          "JSEP error: invalid SDP", st, []⟩ := by
  have hb1 : strcaseeq "POST" "GET" = false := rfl
  have hb2 : strcaseeq "POST" "POST" = true := rfl
  have hb3 : strcaseeq "POST" "OPTIONS" = false := rfl
  have hlt : ¬ (g_ascii_strtoll sp < 1) := by
    rw [hsp]
    omega
  have htn : (g_ascii_strtoll sp).toNat = sid := by
    rw [hsp]
    exact Int.toNat_natCast sid
  have hlt2 : ¬ (g_ascii_strtoll hp < 1) := by
    rw [hhp]
    omega
  have htn2 : (g_ascii_strtoll hp).toNat = hid := by
    rw [hhp]
    exact Int.toNat_natCast hid
  have hna := strcaseeq_false_of jt "message" "attach" hverb rfl
  have hnd := strcaseeq_false_of jt "message" "destroy" hverb rfl
  have hnt := strcaseeq_false_of jt "message" "detach" hverb rfl
  rcases hty with hty1 | hty1 <;>
    simp [janus_ws_handler, janus_ws_post_dispatch, janus_ws_message_branch,
      janus_ice_handle_find, janus_session_find, hb1, hb2, hb3, hlt, htn, hlt2,
      htn2, halloc, hobj, ht, hj, hverb, hna, hnd, hnt, hfind, hfh, happ, htok,
      hbody, hbodyobj, hjsep, hjsepobj, htype, hty1, hsdp, hpre, hhpos]

/-- C8 witness: a concrete offer whose sdp the pre-parse oracle rejects gets
the JSEP_INVALID_SDP error and produces no plugin or ICE call. -/
theorem C8_witness :
    janus_ws_handler extOk [("janus.plugin.videocall", videocallPlugin)]
        (fun _ => 0) 1 "/janus"
        ⟨"POST", .parsed (some "1") (some "2") false,
          some (some (Json.obj [("janus", Json.str "message"),
            ("transaction", Json.str "t"),
            ("body", Json.obj []),
            ("jsep", Json.obj [("type", Json.str "offer"),
              ("sdp", Json.str "v=0 garbage")])]))⟩
        ⟨none, none, 0⟩
        ⟨[(1, ⟨1, [], 0, [(2, ⟨2, some 1, some videocallPlugin, true, 0, 0⟩)]⟩)], 0⟩
      = ⟨janus_ws_error extOk ⟨none, none, 1⟩ (some "t") .jsepInvalidSdp
          "JSEP error: invalid SDP",
          ⟨[(1, ⟨1, [], 0, [(2, ⟨2, some 1, some videocallPlugin, true, 0, 0⟩)]⟩)], 0⟩,
          []⟩ :=
  C8_preparse_failure extOk [("janus.plugin.videocall", videocallPlugin)]
    (fun _ => 0) 1 "/janus" "1" "2" ⟨none, none, 0⟩
    ⟨[(1, ⟨1, [], 0, [(2, ⟨2, some 1, some videocallPlugin, true, 0, 0⟩)]⟩)], 0⟩
    1 2 ⟨1, [], 0, [(2, ⟨2, some 1, some videocallPlugin, true, 0, 0⟩)]⟩
    ⟨2, some 1, some videocallPlugin, true, 0, 0⟩ videocallPlugin
    (Json.obj [("janus", Json.str "message"), ("transaction", Json.str "t"),
      ("body", Json.obj []),
      ("jsep", Json.obj [("type", Json.str "offer"), ("sdp", Json.str "v=0 garbage")])])
    (Json.obj []) (Json.obj [("type", Json.str "offer"), ("sdp", Json.str "v=0 garbage")])
    "t" "message" "offer" "v=0 garbage"
    rfl rfl (by decide) rfl (by decide) rfl rfl rfl rfl rfl rfl rfl rfl rfl rfl
    rfl rfl rfl (Or.inl rfl) rfl rfl

theorem responseCors_none : responseCors none := trivial

theorem responseCors_cors (status : Nat) (msg : janus_http_msg) (b : Option Payload) :
    responseCors (some ⟨status, corsHeaders msg, b⟩) :=
  Or.inr (mem_corsHeaders msg)

theorem responseCors_cons (status : Nat) (hd : String × String) (msg : janus_http_msg)
    (b : Option Payload) :
    responseCors (some ⟨status, hd :: corsHeaders msg, b⟩) :=
  Or.inr (List.mem_cons_of_mem hd (mem_corsHeaders msg))

theorem responseCors_success (msg : janus_http_msg) (payload : Option Payload) :
    responseCors (janus_ws_success msg payload) := by
  unfold janus_ws_success
  cases payload with
  | none => exact trivial
  | some p => exact responseCors_cons 200 _ msg (some p)

theorem responseCors_error (ext : Externals) (msg : janus_http_msg)
    (t : Option String) (e : ApiError) (r : String) :
    responseCors (janus_ws_error ext msg t e r) := by
  unfold janus_ws_error
  split
  · exact responseCors_cons 200 _ msg _
  · exact Or.inl rfl

theorem responseCors_notifier (ext : Externals) (msg : janus_http_msg)
    (st : GatewayState) :
    responseCors (janus_ws_notifier ext msg st).1 := by
  unfold janus_ws_notifier
  split
  · exact responseCors_cors 404 msg none
  · dsimp only
    repeat' split
    all_goals try dsimp only
    all_goals
      first
      | exact responseCors_success msg _
      | exact trivial

theorem responseCors_create_branch (ext : Externals) (rng : Nat → Nat) (fuel : Nat)
    (req : HttpReq) (msg : janus_http_msg) (st : GatewayState) :
    responseCors (janus_ws_create_branch ext rng fuel req msg st).response := by
  unfold janus_ws_create_branch
  repeat' split
  all_goals try dsimp only
  all_goals
    first
    | exact responseCors_error ext msg _ _ _
    | exact responseCors_success msg _

theorem responseCors_get_branch (ext : Externals) (ws_path session_path : String)
    (handle_path : Option String) (msg : janus_http_msg) (sid : Nat)
    (st : GatewayState) :
    responseCors (janus_ws_get_branch ext ws_path session_path handle_path msg sid
      st).response := by
  unfold janus_ws_get_branch
  repeat' split
  all_goals try dsimp only
  all_goals
    first
    | exact responseCors_cons _ _ msg _
    | exact responseCors_cors _ msg _
    | exact responseCors_success msg _
    | exact responseCors_notifier ext msg st

theorem responseCors_attach_branch (ext : Externals)
    (plugins : List (String × janus_plugin)) (rng : Nat → Nat) (fuel : Nat)
    (root : Json) (t : String) (msg : janus_http_msg) (sid : Nat)
    (session : janus_session) (handleOpt : Option janus_ice_handle)
    (st : GatewayState) :
    responseCors (janus_ws_attach_branch ext plugins rng fuel root t msg sid session
      handleOpt st).response := by
  unfold janus_ws_attach_branch
  repeat' split
  all_goals try dsimp only
  all_goals
    first
    | exact responseCors_error ext msg _ _ _
    | exact responseCors_success msg _

theorem responseCors_destroy_branch (ext : Externals) (t : String)
    (msg : janus_http_msg) (sid : Nat) (handleOpt : Option janus_ice_handle)
    (st : GatewayState) :
    responseCors (janus_ws_destroy_branch ext t msg sid handleOpt st).response := by
  unfold janus_ws_destroy_branch
  repeat' split
  all_goals try dsimp only
  all_goals
    first
    | exact responseCors_error ext msg _ _ _
    | exact responseCors_success msg _

theorem responseCors_detach_branch (ext : Externals) (t : String)
    (msg : janus_http_msg) (sid : Nat) (session : janus_session) (handle_id : Nat)
    (handleOpt : Option janus_ice_handle) (st : GatewayState) :
    responseCors (janus_ws_detach_branch ext t msg sid session handle_id handleOpt
      st).response := by
  unfold janus_ws_detach_branch
  repeat' split
  all_goals try dsimp only
  all_goals
    first
    | exact responseCors_error ext msg _ _ _
    | exact responseCors_success msg _

theorem responseCors_message_branch (ext : Externals) (root : Json) (t : String)
    (msg : janus_http_msg) (sid : Nat) (session : janus_session) (handle_id : Nat)
    (handleOpt : Option janus_ice_handle) (st : GatewayState) :
    responseCors (janus_ws_message_branch ext root t msg sid session handle_id
      handleOpt st).response := by
  unfold janus_ws_message_branch
  repeat' split
  all_goals try dsimp only
  all_goals
    first
    | exact responseCors_error ext msg _ _ _
    | exact responseCors_success msg _
    | exact trivial

theorem responseCors_post_dispatch (ext : Externals)
    (plugins : List (String × janus_plugin)) (rng : Nat → Nat) (fuel : Nat)
    (root : Json) (msg : janus_http_msg) (sid handle_id : Nat) (st : GatewayState) :
    responseCors (janus_ws_post_dispatch ext plugins rng fuel root msg sid handle_id
      st).response := by
  unfold janus_ws_post_dispatch
  repeat' split
  all_goals try dsimp only
  all_goals
    first
    | exact responseCors_error ext msg _ _ _
    | exact responseCors_success msg _
    | exact responseCors_attach_branch ext plugins rng fuel root _ msg sid _ _ st
    | exact responseCors_destroy_branch ext _ msg sid _ st
    | exact responseCors_detach_branch ext _ msg sid _ handle_id _ st
    | exact responseCors_message_branch ext root _ msg sid _ handle_id _ st

/-- C9 (amended): every response the request handler emits either carries the
header Access-Control-Allow-Origin: * or is one of the internal-error 500
responses (emitted when the allocation inside the error formatter fails),
which carry no headers at all. -/
theorem C9_cors_on_all_responses (ext : Externals)
    (plugins : List (String × janus_plugin)) (rng : Nat → Nat) (fuel : Nat)
    (ws_path : String) (req : HttpReq) (msg : janus_http_msg) (st : GatewayState) :
    responseCors (janus_ws_handler ext plugins rng fuel ws_path req msg st).response := by
  unfold janus_ws_handler
  repeat' split
  all_goals try dsimp only
  all_goals
    first
    | exact responseCors_cors _ msg _
    | exact responseCors_create_branch ext rng fuel req msg st
    | exact responseCors_get_branch ext ws_path _ _ _ _ st
    | exact responseCors_error ext _ _ _ _
    | exact responseCors_post_dispatch ext plugins rng fuel _ _ _ _ st
    | exact trivial

/-- C9 counterexample: a concrete GET on the base URL with a failing
allocator is answered by the error path with a bare 500 response carrying no
header at all, in particular no Access-Control-Allow-Origin. -/
theorem C9_counterexample :
    (janus_ws_handler extNoAlloc [] (fun _ => 0) 1 "/janus"
        ⟨"GET", .parsed none none false, none⟩ ⟨none, none, 0⟩ ⟨[], 0⟩).response
      = some ⟨500, [], none⟩
    ∧ ("Access-Control-Allow-Origin", "*") ∉ ([] : List (String × String)) :=
  ⟨rfl, by decide⟩

end Janus
